import Mathlib

/-!
Verification of the ais-matching core: the greedy auto-assignment engine
(`generateAutoAssignment`), the team-composition analyzer
(`analyzeTeamComposition` and its sub-analyses), and the fairness metric
suite (`calculateFairnessMetrics`).  Numeric values are modelled over ℚ
(exact arithmetic); the Shannon-diversity computation, which can produce
NaN/Infinity through JavaScript float division, is modelled over ℝ with an
explicit `JSNum` codomain tracking NaN and the infinities.
-/

namespace AIS

/-- JavaScript number results that can be NaN or ±Infinity.  Finite values
are modelled as exact reals. -/
inductive JSNum where
  | nan : JSNum
  | posInf : JSNum
  | negInf : JSNum
  | fin : ℝ → JSNum

/-- JavaScript division on `JSNum` (sign conventions of IEEE-754 with a
single zero). -/
noncomputable def jsDiv : JSNum → JSNum → JSNum
  | .nan, _ => .nan
  | _, .nan => .nan
  | .posInf, .posInf => .nan
  | .posInf, .negInf => .nan
  | .negInf, .posInf => .nan
  | .negInf, .negInf => .nan
  | .posInf, .fin b => if b < 0 then .negInf else .posInf
  | .negInf, .fin b => if b < 0 then .posInf else .negInf
  | .fin _, .posInf => .fin 0
  | .fin _, .negInf => .fin 0
  | .fin a, .fin b =>
      if b = 0 then (if a = 0 then .nan else if 0 < a then .posInf else .negInf)
      else .fin (a / b)

/-- JavaScript addition on `JSNum`. -/
noncomputable def jsAdd : JSNum → JSNum → JSNum
  | .nan, _ => .nan
  | _, .nan => .nan
  | .posInf, .negInf => .nan
  | .negInf, .posInf => .nan
  | .posInf, _ => .posInf
  | _, .posInf => .posInf
  | .negInf, _ => .negInf
  | _, .negInf => .negInf
  | .fin a, .fin b => .fin (a + b)

/-- Multiplication by the positive literal 100 (`shannon * 100`). -/
noncomputable def jsMul100 : JSNum → JSNum
  | .nan => .nan
  | .posInf => .posInf
  | .negInf => .negInf
  | .fin a => .fin (a * 100)

/-- `Math.max` for two arguments: NaN-propagating maximum. -/
noncomputable def jsMax : JSNum → JSNum → JSNum
  | .nan, _ => .nan
  | _, .nan => .nan
  | .posInf, _ => .posInf
  | _, .posInf => .posInf
  | .negInf, y => y
  | x, .negInf => x
  | .fin a, .fin b => .fin (max a b)

/-- `Math.min` for two arguments: NaN-propagating minimum. -/
noncomputable def jsMin : JSNum → JSNum → JSNum
  | .nan, _ => .nan
  | _, .nan => .nan
  | .negInf, _ => .negInf
  | _, .negInf => .negInf
  | .posInf, y => y
  | x, .posInf => x
  | .fin a, .fin b => .fin (min a b)

/-- `Math.log` on a real argument: `log 0 = -Infinity`, `log x = NaN` for
negative `x`. -/
noncomputable def jsLog (x : ℝ) : JSNum :=
  if 0 < x then .fin (Real.log x) else if x = 0 then .negInf else .nan

end AIS

namespace AIS

/-- Breakdown of a compatibility score into named sub-scores
(`CompatibilityBreakdown` in types.ts). -/
structure CompatibilityBreakdown where
  mbti : ℚ
  learningStyle : ℚ
  saju : ℚ
  name : ℚ
  loadBalance : ℚ
deriving DecidableEq

/-- `CompatibilityScore` in types.ts. -/
structure CompatibilityScore where
  overall : ℚ
  breakdown : CompatibilityBreakdown
  reasons : List String
deriving DecidableEq

/-- `MbtiPercentages` in types.ts (all fields optional). -/
structure MbtiPercentages where
  E : Option ℚ := none
  I : Option ℚ := none
  S : Option ℚ := none
  N : Option ℚ := none
  T : Option ℚ := none
  F : Option ℚ := none
  J : Option ℚ := none
  P : Option ℚ := none
  visual : Option ℚ := none
  auditory : Option ℚ := none
  reading : Option ℚ := none
  kinesthetic : Option ℚ := none
deriving DecidableEq

/-- The five-element weights inside a `SajuResult`. -/
structure FiveElements where
  wood : Option ℚ := none
  fire : Option ℚ := none
  earth : Option ℚ := none
  metal : Option ℚ := none
  water : Option ℚ := none
deriving DecidableEq

/-- `SajuResult` in types.ts. -/
structure SajuResult where
  fiveElements : Option FiveElements := none
deriving DecidableEq

/-- `NameResult` in types.ts. -/
structure NameResult where
  totalScore : Option ℚ := none
deriving DecidableEq

/-- `TeacherAnalysisData` in types.ts: opaque analysis bundle plus the
teacher's current load (overwritten with the running load before each
`scoreFn` call). -/
structure TeacherAnalysisData where
  mbti : Option MbtiPercentages := none
  saju : Option SajuResult := none
  name : Option NameResult := none
  currentLoad : ℕ := 0
deriving DecidableEq

/-- `StudentAnalysisData` in types.ts. -/
structure StudentAnalysisData where
  mbti : Option MbtiPercentages := none
  saju : Option SajuResult := none
  name : Option NameResult := none
deriving DecidableEq

/-- `TeacherCandidate` in auto-assignment.ts. -/
structure TeacherCandidate where
  id : String
  currentLoad : ℕ
  analysisData : TeacherAnalysisData
deriving DecidableEq

/-- `StudentCandidate` in auto-assignment.ts. -/
structure StudentCandidate where
  id : String
  analysisData : StudentAnalysisData
deriving DecidableEq

/-- `DetailedAssignment` in types.ts. -/
structure DetailedAssignment where
  studentId : String
  teacherId : String
  score : CompatibilityScore
deriving DecidableEq

/-- `AutoAssignmentOptions` in types.ts. -/
structure AutoAssignmentOptions where
  maxStudentsPerTeacher : Option ℕ := none
  minCompatibilityThreshold : Option ℚ := none
deriving DecidableEq

/-- The injected scoring callback (`CompatibilityScoreFn`). -/
def CompatibilityScoreFn : Type :=
  TeacherAnalysisData → StudentAnalysisData → ℚ → CompatibilityScore

/-- The running load table, seeded from each teacher's starting load
(`teacherLoads.set(teacher.id, teacher.currentLoad)` over the teachers in
input order; a JS `Map` keeps one entry per key, later inserts win). -/
def initialLoads (teachers : List TeacherCandidate) : String → ℕ :=
  teachers.foldl (fun m t => Function.update m t.id t.currentLoad) (fun _ => 0)

/-- The minimum-score check
`options.minCompatibilityThreshold && score.overall < options.minCompatibilityThreshold`:
a missing threshold, and the falsy threshold `0`, never reject. -/
def rejects (thr : Option ℚ) (overall : ℚ) : Bool :=
  match thr with
  | none => false
  | some t => if t = 0 then false else decide (overall < t)

/-- The score the engine computes for one (teacher, student) pair: the
teacher's analysis bundle with its `currentLoad` overwritten by the
running load. -/
def scoreAt (f : CompatibilityScoreFn) (avg : ℚ) (loads : String → ℕ)
    (st : StudentCandidate) (t : TeacherCandidate) : CompatibilityScore :=
  f { t.analysisData with currentLoad := loads t.id } st.analysisData avg

/-- One step of the inner teacher scan: skip a teacher at or above the
cap, score the remaining ones, drop rejected scores, keep the strictly
best score seen so far (strict `>`, first seen wins ties). -/
def pickStep (f : CompatibilityScoreFn) (avg : ℚ) (cap : ℕ) (thr : Option ℚ)
    (loads : String → ℕ) (st : StudentCandidate)
    (best : Option (String × CompatibilityScore)) (t : TeacherCandidate) :
    Option (String × CompatibilityScore) :=
  if cap ≤ loads t.id then best
  else
    let score := scoreAt f avg loads st t
    if rejects thr score.overall then best
    else
      match best with
      | none => some (t.id, score)
      | some b => if b.2.overall < score.overall then some (t.id, score) else best

/-- The inner loop of `generateAutoAssignment`: find the best teacher for
one student under the current load table. -/
def pickBest (teachers : List TeacherCandidate) (f : CompatibilityScoreFn)
    (avg : ℚ) (cap : ℕ) (thr : Option ℚ) (loads : String → ℕ)
    (st : StudentCandidate) : Option (String × CompatibilityScore) :=
  teachers.foldl (pickStep f avg cap thr loads st) none

/-- One step of the outer student loop: commit the best pairing and
increment that teacher's running load.  The commit is guarded by the
truthiness check `if (bestTeacherId && bestScore)`: a best teacher whose
id is the (falsy) empty string is not committed. -/
def assignStep (teachers : List TeacherCandidate) (f : CompatibilityScoreFn)
    (avg : ℚ) (cap : ℕ) (thr : Option ℚ)
    (acc : (String → ℕ) × List DetailedAssignment) (st : StudentCandidate) :
    (String → ℕ) × List DetailedAssignment :=
  match pickBest teachers f avg cap thr acc.1 st with
  | none => acc
  | some (tid, sc) =>
      if tid = "" then acc
      else
        (Function.update acc.1 tid (acc.1 tid + 1),
         acc.2 ++ [{ studentId := st.id, teacherId := tid, score := sc }])

/-- The full greedy pass over the students, returning the final load table
and the assignment list. -/
def assignFold (students : List StudentCandidate)
    (teachers : List TeacherCandidate) (f : CompatibilityScoreFn)
    (avg : ℚ) (cap : ℕ) (thr : Option ℚ) :
    (String → ℕ) × List DetailedAssignment :=
  students.foldl (assignStep teachers f avg cap thr) (initialLoads teachers, [])

/-- The effective load cap:
`options.maxStudentsPerTeacher ?? Math.ceil(averageLoad * 1.2)`. -/
def maxLoadOf (o : AutoAssignmentOptions) (nStudents nTeachers : ℕ) : ℕ :=
  match o.maxStudentsPerTeacher with
  | some m => m
  | none => (⌈((nStudents : ℚ) / (nTeachers : ℚ)) * 1.2⌉).toNat

/-- `generateAutoAssignment` in auto-assignment.ts. -/
def generateAutoAssignment (students : List StudentCandidate)
    (teachers : List TeacherCandidate) (f : CompatibilityScoreFn)
    (o : AutoAssignmentOptions) : List DetailedAssignment :=
  if teachers.length = 0 ∨ students.length = 0 then []
  else
    (assignFold students teachers f
      ((students.length : ℚ) / (teachers.length : ℚ))
      (maxLoadOf o students.length teachers.length)
      o.minCompatibilityThreshold).2

/-- `TeacherTeamData` in types.ts; `createdAt` is an epoch-millisecond
timestamp. -/
structure TeacherTeamData where
  id : String
  name : String
  role : String
  createdAt : ℚ
  mbtiType : Option String := none
  mbtiPercentages : Option MbtiPercentages := none
  sajuResult : Option SajuResult := none
  studentGrades : Option (List ℕ) := none
deriving DecidableEq

/-- The fixed subject list `SUBJECTS`. -/
def SUBJECTS : List String := ["수학", "영어", "국어", "과학", "사회"]

/-- The fixed grade-label list `GRADES`. -/
def GRADES : List String := ["중1", "중2", "중3", "고1", "고2", "고3"]

/-- `gradeToLabel` in team-composition.ts. -/
def gradeToLabel (grade : ℕ) : String :=
  if grade ≤ 3 then "중" ++ toString grade else "고" ++ toString (grade - 3)

/-- Lookup in a JS object modelled as an insertion-ordered association
list, with the `|| 0` default for missing keys. -/
def recGet : List (String × ℕ) → String → ℕ
  | [], _ => 0
  | (k, v) :: rest, k2 => if k = k2 then v else recGet rest k2

/-- `obj[k] = (obj[k] || 0) + 1` on a JS object: update an existing key in
place, else append the new key. -/
def recBump : List (String × ℕ) → String → List (String × ℕ)
  | [], k => [(k, 1)]
  | (k1, v) :: rest, k => if k1 = k then (k1, v + 1) :: rest else (k1, v) :: recBump rest k

/-- `obj[k] = obj[k] || 0`: force the key to exist, keeping its value. -/
def recEnsure (l : List (String × ℕ)) (k : String) : List (String × ℕ) :=
  if l.any (fun p => p.1 = k) then l else l ++ [(k, 0)]

/-- The exact-type tally `typeCounts` in `analyzeMBTIDistribution`
(teachers with a falsy `mbtiType` are skipped). -/
def typeCountsOf (teachers : List TeacherTeamData) : List (String × ℕ) :=
  teachers.foldl (fun l t =>
    match t.mbtiType with
    | none => l
    | some m => if m = "" then l else recBump l m) []

/-- One axis-letter presence counter of `analyzeMBTIDistribution`
(`type.includes(letter) ? 1 : 0` over the uppercased type codes). -/
def letterCount (teachers : List TeacherTeamData) (c : Char) : ℕ :=
  teachers.foldl (fun acc t =>
    match t.mbtiType with
    | none => acc
    | some m =>
        if m = "" then acc
        else acc + (if (m.data.map Char.toUpper).contains c then 1 else 0)) 0

/-- `total > 0 ? (x / total) * 100 : 0`. -/
def axisRatio (x total : ℕ) : ℚ :=
  if 0 < total then ((x : ℚ) / (total : ℚ)) * 100 else 0

/-- The eight per-letter axis ratios of `analyzeMBTIDistribution`; every
one of them is divided by the same `total = e + i`. -/
structure AxisRatios where
  E : ℚ
  I : ℚ
  S : ℚ
  N : ℚ
  T : ℚ
  F : ℚ
  J : ℚ
  P : ℚ
deriving DecidableEq

/-- `MBTIDistribution` in types.ts. -/
structure MBTIDistribution where
  typeCounts : List (String × ℕ)
  mostCommon : List String
  rarest : List String
  axisRatios : AxisRatios
deriving DecidableEq

/-- `analyzeMBTIDistribution` in team-composition.ts. -/
def analyzeMBTIDistribution (teachers : List TeacherTeamData) : MBTIDistribution :=
  let typeCounts := typeCountsOf teachers
  let e := letterCount teachers 'E'
  let i := letterCount teachers 'I'
  let s := letterCount teachers 'S'
  let n := letterCount teachers 'N'
  let t := letterCount teachers 'T'
  let f := letterCount teachers 'F'
  let j := letterCount teachers 'J'
  let p := letterCount teachers 'P'
  let sorted := (typeCounts.map Prod.fst).mergeSort
    (fun a b => decide (recGet typeCounts b ≤ recGet typeCounts a))
  let total := e + i
  { typeCounts := typeCounts
    mostCommon := sorted.take 3
    rarest := sorted.reverse.take 3
    axisRatios :=
      { E := axisRatio e total
        I := axisRatio i total
        S := axisRatio s total
        N := axisRatio n total
        T := axisRatio t total
        F := axisRatio f total
        J := axisRatio j total
        P := axisRatio p total } }

/-- `LearningStyleDistribution` in types.ts (the four averages are
`Math.round`ed, hence integers). -/
structure LearningStyleDistribution where
  visual : ℤ
  auditory : ℤ
  reading : ℤ
  kinesthetic : ℤ
  dominant : String
deriving DecidableEq

/-- `analyzeLearningStyleDistribution` in team-composition.ts. -/
def analyzeLearningStyleDistribution (teachers : List TeacherTeamData) :
    LearningStyleDistribution :=
  let withP := teachers.filterMap (fun t => t.mbtiPercentages)
  let count := withP.length
  if count = 0 then
    { visual := 0, auditory := 0, reading := 0, kinesthetic := 0, dominant := "-" }
  else
    let visual := (withP.map (fun q => q.visual.getD 0)).sum
    let auditory := (withP.map (fun q => q.auditory.getD 0)).sum
    let reading := (withP.map (fun q => q.reading.getD 0)).sum
    let kinesthetic := (withP.map (fun q => q.kinesthetic.getD 0)).sum
    let v := round (visual / (count : ℚ))
    let a := round (auditory / (count : ℚ))
    let r := round (reading / (count : ℚ))
    let k := round (kinesthetic / (count : ℚ))
    let styles : List (String × ℤ) :=
      [("Visual", v), ("Auditory", a), ("Reading", r), ("Kinesthetic", k)]
    let sorted := styles.mergeSort (fun x y => decide (y.2 ≤ x.2))
    { visual := v, auditory := a, reading := r, kinesthetic := k,
      dominant := (sorted.headD ("-", 0)).1 }

/-- `SajuElementsDistribution` in types.ts. -/
structure SajuElementsDistribution where
  wood : ℤ
  fire : ℤ
  earth : ℤ
  metal : ℤ
  water : ℤ
  dominant : String
  deficient : List String
deriving DecidableEq

/-- Sum of one elemental weight across the teachers with saju data
(`if (elements.wood) elementCounts.wood += elements.wood`). -/
def elementSum (teachers : List TeacherTeamData) (get : FiveElements → Option ℚ) : ℚ :=
  teachers.foldl (fun acc t =>
    match t.sajuResult with
    | none => acc
    | some r =>
        match r.fiveElements with
        | none => acc
        | some els =>
            match get els with
            | none => acc
            | some v => if v = 0 then acc else acc + v) 0

/-- `analyzeSajuElementsDistribution` in team-composition.ts. -/
def analyzeSajuElementsDistribution (teachers : List TeacherTeamData) :
    SajuElementsDistribution :=
  let wood := elementSum teachers (fun e => e.wood)
  let fire := elementSum teachers (fun e => e.fire)
  let earth := elementSum teachers (fun e => e.earth)
  let metal := elementSum teachers (fun e => e.metal)
  let water := elementSum teachers (fun e => e.water)
  let total := wood + fire + earth + metal + water
  if total = 0 then
    { wood := 0, fire := 0, earth := 0, metal := 0, water := 0,
      dominant := "-", deficient := [] }
  else
    let elements : List (String × ℚ) :=
      [("목", wood), ("화", fire), ("토", earth), ("금", metal), ("수", water)]
    let sorted := elements.mergeSort (fun x y => decide (y.2 ≤ x.2))
    let avg := total / 5
    let deficient := (sorted.filter (fun e => decide (e.2 < avg * 0.7))).map Prod.fst
    { wood := round ((wood / total) * 100)
      fire := round ((fire / total) * 100)
      earth := round ((earth / total) * 100)
      metal := round ((metal / total) * 100)
      water := round ((water / total) * 100)
      dominant := (sorted.headD ("-", 0)).1
      deficient := deficient }

/-- The three experience buckets of `ExpertiseCoverage`. -/
structure ExperienceLevels where
  junior : ℕ
  mid : ℕ
  senior : ℕ
deriving DecidableEq

/-- `ExpertiseCoverage` in types.ts. -/
structure ExpertiseCoverage where
  subjects : List (String × ℕ)
  grades : List (String × ℕ)
  experienceLevels : ExperienceLevels
  weakSubjects : List String
  weakGrades : List String
deriving DecidableEq

/-- The grade-label tally of `analyzeExpertiseCoverage` before the fixed
labels get defaulted in. -/
def gradeTallyRaw (teachers : List TeacherTeamData) : List (String × ℕ) :=
  teachers.foldl (fun l t =>
    (t.studentGrades.getD []).foldl (fun l2 g => recBump l2 (gradeToLabel g)) l) []

/-- The grade record of `analyzeExpertiseCoverage`
(tally, then `grades[grade] = grades[grade] || 0` over `GRADES`). -/
def gradesTally (teachers : List TeacherTeamData) : List (String × ℕ) :=
  GRADES.foldl recEnsure (gradeTallyRaw teachers)

/-- The subject record of `analyzeExpertiseCoverage`: nothing in the
teacher loop writes to `subjects`, so it is exactly the defaulting loop
`subjects[sub] = subjects[sub] || 0` applied to the empty object. -/
def subjectsTally : List (String × ℕ) :=
  SUBJECTS.foldl recEnsure []

/-- The experience-tier bucketing of `analyzeExpertiseCoverage`, driven by
the wall clock (`now`, epoch milliseconds): tenure below one 365-day year
is junior, below three is mid, the rest senior. -/
def experienceTiers (now : ℚ) (teachers : List TeacherTeamData) : ExperienceLevels :=
  teachers.foldl (fun lv t =>
    let years := (now - t.createdAt) / (1000 * 60 * 60 * 24 * 365)
    if years < 1 then { lv with junior := lv.junior + 1 }
    else if years < 3 then { lv with mid := lv.mid + 1 }
    else { lv with senior := lv.senior + 1 }) ⟨0, 0, 0⟩

/-- `avgSubjectCoverage` in `analyzeExpertiseCoverage`. -/
def avgSubjectCoverage (teachers : List TeacherTeamData) : ℚ :=
  if 0 < teachers.length then (teachers.length : ℚ) / (SUBJECTS.length : ℚ) else 0

/-- `avgGradeCoverage` in `analyzeExpertiseCoverage`. -/
def avgGradeCoverage (teachers : List TeacherTeamData) : ℚ :=
  if 0 < teachers.length then (teachers.length : ℚ) / (GRADES.length : ℚ) else 0

/-- The weak-subject scan: subjects whose count is below half the even
share. -/
def weakSubjectsOf (teachers : List TeacherTeamData) : List String :=
  SUBJECTS.filter (fun s =>
    decide ((recGet subjectsTally s : ℚ) < avgSubjectCoverage teachers * 0.5))

/-- The weak-grade scan: grade labels whose count is below half the even
share. -/
def weakGradesOf (teachers : List TeacherTeamData) : List String :=
  GRADES.filter (fun g =>
    decide ((recGet (gradesTally teachers) g : ℚ) < avgGradeCoverage teachers * 0.5))

/-- `analyzeExpertiseCoverage` in team-composition.ts, with the
`new Date()` read made explicit as the `now` parameter. -/
def analyzeExpertiseCoverage (now : ℚ) (teachers : List TeacherTeamData) :
    ExpertiseCoverage :=
  { subjects := subjectsTally
    grades := gradesTally teachers
    experienceLevels := experienceTiers now teachers
    weakSubjects := weakSubjectsOf teachers
    weakGrades := weakGradesOf teachers }

/-- `RoleDistribution` in types.ts. -/
structure RoleDistribution where
  TEAM_LEADER : ℕ
  MANAGER : ℕ
  TEACHER : ℕ
deriving DecidableEq

/-- `analyzeRoleDistribution` in team-composition.ts (unrecognized roles
are ignored). -/
def analyzeRoleDistribution (teachers : List TeacherTeamData) : RoleDistribution :=
  teachers.foldl (fun d t =>
    if t.role = "TEAM_LEADER" then { d with TEAM_LEADER := d.TEAM_LEADER + 1 }
    else if t.role = "MANAGER" then { d with MANAGER := d.MANAGER + 1 }
    else if t.role = "TEACHER" then { d with TEACHER := d.TEACHER + 1 }
    else d) ⟨0, 0, 0⟩

/-- `TeamComposition` in types.ts. -/
structure TeamComposition where
  teamId : String
  teacherCount : ℕ
  mbtiDistribution : MBTIDistribution
  learningStyleDistribution : LearningStyleDistribution
  sajuElementsDistribution : SajuElementsDistribution
  expertiseCoverage : ExpertiseCoverage
  roleDistribution : RoleDistribution
deriving DecidableEq

/-- `calculateShannonDiversity` in team-composition.ts, over the JS float
semantics: the final `-sum / Math.log(counts.length)` can be `0/0 = NaN`
(single category) or `x/0 = Infinity`, and NaN passes through the
`Math.min(Math.max(..))` clamp unchanged. -/
noncomputable def calculateShannonDiversity (counts : List ℝ) (total : ℝ) : JSNum :=
  if total = 0 then .fin 0
  else
    let sum := counts.foldl
      (fun s c => if c = 0 then s else s + (c / total) * Real.log (c / total)) 0
    let maxDiversity := jsLog (counts.length : ℝ)
    jsMin (jsMax (jsMul100 (jsDiv (.fin (-sum)) maxDiversity)) (.fin 0)) (.fin 100)

/-- The result of a `Math.round` on a JS number: an integer, NaN, or an
infinity. -/
inductive RoundedNum where
  | nan : RoundedNum
  | posInf : RoundedNum
  | negInf : RoundedNum
  | int : ℤ → RoundedNum
deriving DecidableEq

/-- `Math.round` (ties go up, like Mathlib `round`). -/
noncomputable def jsRound : JSNum → RoundedNum
  | .nan => .nan
  | .posInf => .posInf
  | .negInf => .negInf
  | .fin x => .int (round x)

/-- Decimal rendering of a rounded JS number, as template interpolation
would print it. -/
def RoundedNum.toStr : RoundedNum → String
  | .nan => "NaN"
  | .posInf => "Infinity"
  | .negInf => "-Infinity"
  | .int n => toString n

/-- `x < c` on a rounded JS number against an integer literal (false for
NaN). -/
def RoundedNum.ltInt : RoundedNum → ℤ → Bool
  | .nan, _ => false
  | .posInf, _ => false
  | .negInf, _ => true
  | .int n, c => decide (n < c)

/-- `x >= c` on a rounded JS number against an integer literal (false for
NaN). -/
def RoundedNum.geInt : RoundedNum → ℤ → Bool
  | .nan, _ => false
  | .posInf, _ => true
  | .negInf, _ => false
  | .int n, c => decide (c ≤ n)

/-- `DiversityScore` in types.ts; every field is `Math.round`ed. -/
structure DiversityScore where
  overall : RoundedNum
  mbtiDiversity : RoundedNum
  learningStyleDiversity : RoundedNum
  sajuElementsDiversity : RoundedNum
  subjectDiversity : RoundedNum
  gradeDiversity : RoundedNum
deriving DecidableEq

/-- `calculateDiversityScore` in team-composition.ts. -/
noncomputable def calculateDiversityScore (composition : TeamComposition) : DiversityScore :=
  let mbtiCounts := composition.mbtiDistribution.typeCounts.map (fun q => ((q.2 : ℕ) : ℝ))
  let mbtiDiversity := calculateShannonDiversity mbtiCounts (composition.teacherCount : ℝ)
  let lsd := composition.learningStyleDistribution
  let learningStyleCounts : List ℝ :=
    [(lsd.visual : ℝ), (lsd.auditory : ℝ), (lsd.reading : ℝ), (lsd.kinesthetic : ℝ)]
  let learningStyleDiversity :=
    calculateShannonDiversity learningStyleCounts ((composition.teacherCount : ℝ) * 100)
  let saju := composition.sajuElementsDistribution
  let sajuCounts : List ℝ :=
    [(saju.wood : ℝ), (saju.fire : ℝ), (saju.earth : ℝ), (saju.metal : ℝ), (saju.water : ℝ)]
  let sajuElementsDiversity := calculateShannonDiversity sajuCounts 100
  let subjectCounts := composition.expertiseCoverage.subjects.map (fun q => ((q.2 : ℕ) : ℝ))
  let totalSubjectTeachers := (composition.expertiseCoverage.subjects.map Prod.snd).sum
  let subjectDiversity :=
    if 0 < totalSubjectTeachers then
      calculateShannonDiversity subjectCounts (totalSubjectTeachers : ℝ)
    else JSNum.fin 0
  let gradeCounts := composition.expertiseCoverage.grades.map (fun q => ((q.2 : ℕ) : ℝ))
  let totalGradeTeachers := (composition.expertiseCoverage.grades.map Prod.snd).sum
  let gradeDiversity :=
    if 0 < totalGradeTeachers then
      calculateShannonDiversity gradeCounts (totalGradeTeachers : ℝ)
    else JSNum.fin 0
  let overall :=
    jsDiv (jsAdd (jsAdd (jsAdd (jsAdd mbtiDiversity learningStyleDiversity)
      sajuElementsDiversity) subjectDiversity) gradeDiversity) (.fin 5)
  { overall := jsRound overall
    mbtiDiversity := jsRound mbtiDiversity
    learningStyleDiversity := jsRound learningStyleDiversity
    sajuElementsDiversity := jsRound sajuElementsDiversity
    subjectDiversity := jsRound subjectDiversity
    gradeDiversity := jsRound gradeDiversity }

/-- `Recommendation` in types.ts. -/
structure Recommendation where
  id : String
  type : String
  priority : String
  title : String
  description : String
  evidence : String
  actionItems : List String
deriving DecidableEq

/-- The priority order used to sort recommendations. -/
def priorityRank (p : String) : ℤ :=
  if p = "high" then 0 else if p = "medium" then 1 else 2

/-- `getTeamRecommendations` in team-composition.ts. -/
def getTeamRecommendations (composition : TeamComposition)
    (diversityScore : DiversityScore) : List Recommendation :=
  let lsd := composition.learningStyleDistribution
  let saju := composition.sajuElementsDistribution
  let cov := composition.expertiseCoverage
  let rec1 : List Recommendation :=
    if lsd.dominant = "Visual" ∧ 100 - lsd.visual < 40 then
      [{ id := "rec-1", type := "diversity", priority := "high"
         title := "학습 스타일 다양성 부족"
         description := "팀 내 학습 스타일이 Visual(" ++ toString lsd.visual ++ "%)에 치중되어 있습니다."
         evidence := "Auditory(" ++ toString lsd.auditory ++ "%), Reading(" ++ toString lsd.reading ++ "%), Kinesthetic(" ++ toString lsd.kinesthetic ++ "%) 선생님 추가가 필요합니다."
         actionItems := ["Auditory 또는 Kinesthetic 스타일 선생님 채용", "기존 선생님들의 학습 스타일 파악 강화"] }]
    else []
  let rec2 : List Recommendation :=
    if 0 < saju.deficient.length then
      [{ id := "rec-2", type := "balance", priority := "medium"
         title := "사주 오행 균형 개선"
         description := "사주 오행 분석 결과 " ++ String.intercalate (", ") saju.deficient ++ " 오행이 부족합니다."
         evidence := "주요 오행: " ++ saju.dominant
         actionItems := ["부족한 오행 선생님 채용 고려", "오행 균형을 고려한 팀 구성 재검토"] }]
    else []
  let rec3 : List Recommendation :=
    if 0 < cov.weakSubjects.length then
      [{ id := "rec-3", type := "coverage", priority := "high"
         title := "전문성 커버리지 강화"
         description := "과목별 전문성이 고르지 않습니다. " ++ String.intercalate (", ") cov.weakSubjects ++ " 과목 커버리지가 부족합니다."
         evidence := "과목별 선생님: " ++ String.intercalate (", ") (cov.subjects.map (fun q => q.1 ++ "(" ++ toString q.2 ++ "명)"))
         actionItems := ["취약 과목 전문 선생님 채용", "기존 선생님들의 과목 전문성 개발"] }]
    else []
  let rec4 : List Recommendation :=
    if 0 < cov.weakGrades.length then
      [{ id := "rec-4", type := "coverage", priority := "medium"
         title := "학년별 커버리지 개선"
         description := String.intercalate (", ") cov.weakGrades ++ " 학년 커버리지가 부족합니다."
         evidence := "학년별 선생님: " ++ String.intercalate (", ") (cov.grades.map (fun q => q.1 ++ "(" ++ toString q.2 ++ "명)"))
         actionItems := ["취약 학년 전문 선생님 배정", "학년 간 균형 있는 선생님 배치"] }]
    else []
  let rec5 : List Recommendation :=
    if diversityScore.overall.ltInt 50 then
      [{ id := "rec-5", type := "diversity", priority := "medium"
         title := "다양성 점수 개선 필요"
         description := "팀 전체 다양성 점수가 " ++ diversityScore.overall.toStr ++ "점으로 낮습니다."
         evidence := "항목별 점수: MBTI(" ++ diversityScore.mbtiDiversity.toStr ++ "), 학습 스타일(" ++ diversityScore.learningStyleDiversity.toStr ++ "), 오행(" ++ diversityScore.sajuElementsDiversity.toStr ++ "), 과목(" ++ diversityScore.subjectDiversity.toStr ++ "), 학년(" ++ diversityScore.gradeDiversity.toStr ++ ")"
         actionItems := ["성향이 다양한 선생님 채용", "기존 팀원 간 교류 강화"] }]
    else []
  let rec6 : List Recommendation :=
    if diversityScore.overall.geInt 70 then
      [{ id := "rec-6", type := "balance", priority := "low"
         title := "팀 균형 우수"
         description := "팀의 다양성과 균형이 우수합니다."
         evidence := "다양성 점수: " ++ diversityScore.overall.toStr ++ "점"
         actionItems := ["현재 균형 유지", "우수 사례 다른 팀과 공유"] }]
    else []
  (rec1 ++ rec2 ++ rec3 ++ rec4 ++ rec5 ++ rec6).mergeSort
    (fun a b => decide (priorityRank a.priority ≤ priorityRank b.priority))

/-- `TeamCompositionAnalysis` in types.ts; `analyzedAt` is the epoch-ms
timestamp stamped by `new Date()`. -/
structure TeamCompositionAnalysis where
  composition : TeamComposition
  diversityScore : DiversityScore
  recommendations : List Recommendation
  analyzedAt : ℚ

/-- `analyzeTeamComposition` in team-composition.ts, with the wall-clock
reads (`new Date()` inside `analyzeExpertiseCoverage` and for
`analyzedAt`) made explicit as the `now` parameter. -/
noncomputable def analyzeTeamComposition (now : ℚ) (teamId : String)
    (teachers : List TeacherTeamData) : TeamCompositionAnalysis :=
  let composition : TeamComposition :=
    { teamId := teamId
      teacherCount := teachers.length
      mbtiDistribution := analyzeMBTIDistribution teachers
      learningStyleDistribution := analyzeLearningStyleDistribution teachers
      sajuElementsDistribution := analyzeSajuElementsDistribution teachers
      expertiseCoverage := analyzeExpertiseCoverage now teachers
      roleDistribution := analyzeRoleDistribution teachers }
  { composition := composition
    diversityScore := calculateDiversityScore composition
    recommendations := getTeamRecommendations composition (calculateDiversityScore composition)
    analyzedAt := now }

/-- Erase the two clock-derived components of an analysis result: the
`analyzedAt` stamp and the experience-tier buckets. -/
def eraseClock (a : TeamCompositionAnalysis) : TeamCompositionAnalysis :=
  { a with
    analyzedAt := 0
    composition := { a.composition with
      expertiseCoverage :=
        { a.composition.expertiseCoverage with experienceLevels := ⟨0, 0, 0⟩ } } }

/-- `Assignment` in types.ts (flat score). -/
structure Assignment where
  studentId : String
  teacherId : String
  score : ℚ
deriving DecidableEq

/-- JS `Map<string, number[]>` upsert: append the score to an existing
group entry in place, or append a fresh entry. -/
def groupAdd : List (String × List ℚ) → String → ℚ → List (String × List ℚ)
  | [], g, x => [(g, [x])]
  | (k, v) :: rest, g, x =>
      if k = g then (k, v ++ [x]) :: rest else (k, v) :: groupAdd rest g x

/-- `Math.max(...l)` for a non-empty list (0 stands in for the guarded
empty case). -/
def maxList (l : List ℚ) : ℚ :=
  match l.max? with
  | some m => m
  | none => 0

/-- `Math.min(...l)` for a non-empty list. -/
def minList (l : List ℚ) : ℚ :=
  match l.min? with
  | some m => m
  | none => 0

/-- `calculateDisparityIndex` in fairness-metrics.ts; the group map is a
function, falsy group labels (missing or empty) are skipped. -/
def calculateDisparityIndex (assignments : List Assignment)
    (studentGroupMap : String → Option String) : ℚ :=
  if assignments.length = 0 then 0
  else
    let groupScores := assignments.foldl (fun gs a =>
      match studentGroupMap a.studentId with
      | none => gs
      | some g => if g.isEmpty then gs else groupAdd gs g a.score) []
    let groupAverages := (groupScores.filter (fun q => 0 < q.2.length)).map
      (fun q => q.2.sum / (q.2.length : ℚ))
    if groupAverages.length < 2 then 0
    else min 1 (max 0 ((maxList groupAverages - minList groupAverages) / 100))

/-- The histogram bin of one score: `Math.min(Math.floor(score / binSize),
bins - 1)`; a negative index never lands in the counted bins 0..9. -/
def binIdx (score : ℚ) : ℤ :=
  min ⌊score / (100 / (10 : ℚ))⌋ (10 - 1)

/-- `calculateABROCA` in fairness-metrics.ts. -/
def calculateABROCA (assignments : List Assignment) : ℚ :=
  if assignments.length = 0 then 0
  else
    let scores := assignments.map (fun a => a.score)
    let histogram := (List.range 10).map
      (fun i => scores.countP (fun s => binIdx s = (i : ℤ)))
    let idealCount := (scores.length : ℚ) / 10
    let l1Distance := (histogram.map (fun c => |(c : ℚ) - idealCount|)).sum
    let maxL1Distance := 2 * (scores.length : ℚ)
    min 1 (max 0 (l1Distance / maxL1Distance))

/-- The per-teacher assignment tally of `calculateDistributionBalance`
(JS `Map` values in insertion order). -/
def teacherCounts (assignments : List Assignment) : List ℕ :=
  (assignments.foldl (fun l a => recBump l a.teacherId) []).map Prod.snd

/-- Mean of the per-teacher counts. -/
def countsMean (l : List ℕ) : ℚ :=
  (l.map (fun c : ℕ => (c : ℚ))).sum / (l.length : ℚ)

/-- Population variance of the per-teacher counts. -/
def countsVariance (l : List ℕ) : ℚ :=
  (l.map (fun c : ℕ => ((c : ℚ) - countsMean l) ^ 2)).sum / (l.length : ℚ)

/-- `Math.sqrt` of the variance. -/
noncomputable def countsStdDev (l : List ℕ) : ℝ :=
  Real.sqrt ((countsVariance l : ℚ) : ℝ)

/-- `calculateDistributionBalance` in fairness-metrics.ts. -/
noncomputable def calculateDistributionBalance (assignments : List Assignment) : ℝ :=
  if assignments.length = 0 then 1
  else
    let counts := teacherCounts assignments
    if counts.length = 0 then 1
    else
      let mean := countsMean counts
      if mean = 0 then 1
      else min 1 (max 0 (1 - countsStdDev counts / (mean : ℝ)))

open Classical in
/-- `generateFairnessRecommendations` in fairness-metrics.ts. -/
noncomputable def generateFairnessRecommendations (disparityIndex abroca : ℚ)
    (distributionBalance : ℝ) : List String :=
  let r1 : List String :=
    if 0.2 < disparityIndex then ["학교 간 궁합 점수 차이가 큽니다. 가중치 재조정을 검토하세요."] else []
  let r2 : List String :=
    if 0.3 < abroca then ["궁합 점수 분포가 편향되어 있습니다. 알고리즘 검토가 필요합니다."] else []
  let r3 : List String :=
    if distributionBalance < 0.7 then ["선생님별 배정 분포가 불균형합니다. 부하 분산 가중치를 높이세요."] else []
  let base := r1 ++ r2 ++ r3
  if base.length = 0 then ["공정성 메트릭이 정상 범위입니다."] else base

/-- `FairnessMetrics` in types.ts. -/
structure FairnessMetrics where
  disparityIndex : ℚ
  abroca : ℚ
  distributionBalance : ℝ
  recommendations : List String

/-- `calculateFairnessMetrics` in fairness-metrics.ts. -/
noncomputable def calculateFairnessMetrics (assignments : List Assignment)
    (studentGroupMap : Option (String → Option String)) : FairnessMetrics :=
  let disparityIndex :=
    match studentGroupMap with
    | some m => calculateDisparityIndex assignments m
    | none => 0
  let abroca := calculateABROCA assignments
  let distributionBalance := calculateDistributionBalance assignments
  { disparityIndex := disparityIndex
    abroca := abroca
    distributionBalance := distributionBalance
    recommendations :=
      generateFairnessRecommendations disparityIndex abroca distributionBalance }

/-- Spec-described best-candidate selection: strictly highest overall
score, first seen wins ties. -/
def selStep (best : Option (String × CompatibilityScore))
    (c : String × CompatibilityScore) : Option (String × CompatibilityScore) :=
  match best with
  | none => some c
  | some b => if b.2.overall < c.2.overall then some c else best

/-- Fold `selStep` over a candidate list. -/
def specSelect (l : List (String × CompatibilityScore)) :
    Option (String × CompatibilityScore) :=
  l.foldl selStep none

/-- Spec-described candidate pipeline for one student: drop teachers at
or above the cap, score every remaining teacher, discard scores below the
optional minimum threshold. -/
def specCandidates (teachers : List TeacherCandidate) (f : CompatibilityScoreFn)
    (avg : ℚ) (cap : ℕ) (thr : Option ℚ) (loads : String → ℕ)
    (st : StudentCandidate) : List (String × CompatibilityScore) :=
  let scored := (teachers.filter (fun t => loads t.id < cap)).map
    (fun t => (t.id, scoreAt f avg loads st t))
  match thr with
  | none => scored
  | some τ => scored.filter (fun c => τ ≤ c.2.overall)

/-- Spec-described per-student step: commit the selected pairing and
increment that teacher's running load. -/
def specStep (teachers : List TeacherCandidate) (f : CompatibilityScoreFn)
    (avg : ℚ) (cap : ℕ) (thr : Option ℚ)
    (acc : (String → ℕ) × List DetailedAssignment) (st : StudentCandidate) :
    (String → ℕ) × List DetailedAssignment :=
  match specSelect (specCandidates teachers f avg cap thr acc.1 st) with
  | none => acc
  | some (tid, sc) =>
      (Function.update acc.1 tid (acc.1 tid + 1),
       acc.2 ++ [{ studentId := st.id, teacherId := tid, score := sc }])

/-- The assignment procedure exactly as the spec describes it: students
in input order, teachers in input order, running loads seeded from
starting loads, effective cap, threshold filter, strict-max selection. -/
def specAssign (students : List StudentCandidate)
    (teachers : List TeacherCandidate) (f : CompatibilityScoreFn)
    (o : AutoAssignmentOptions) : List DetailedAssignment :=
  (students.foldl
    (specStep teachers f ((students.length : ℚ) / (teachers.length : ℚ))
      (maxLoadOf o students.length teachers.length) o.minCompatibilityThreshold)
    (initialLoads teachers, [])).2

/-- Spec-described occurrence count of a label across the teachers'
student-grade lists (each grade rendered through `gradeToLabel`). -/
def labelOccurrences (label : String) (teachers : List TeacherTeamData) : ℕ :=
  (teachers.map (fun t => ((t.studentGrades.getD []).map gradeToLabel).count label)).sum

/-- Spec-described axis ratio: percentage of a letter count over the sum
of its own axis pair, 0 when the pair sum is zero. -/
def pairRatio (x y : ℕ) : ℚ :=
  if 0 < x + y then ((x : ℚ) / ((x + y : ℕ) : ℚ)) * 100 else 0

/-- A teacher's single-letter contribution to one axis counter. -/
def letterContrib (c : Char) (t : TeacherTeamData) : ℕ :=
  match t.mbtiType with
  | none => 0
  | some m => if m = "" then 0 else if (m.data.map Char.toUpper).contains c then 1 else 0

/-- An MBTI string mentions exactly one of the two opposing letters of an
axis (after uppercasing). -/
def oneOf (m : String) (a b : Char) : Bool :=
  ((m.data.map Char.toUpper).contains a) != ((m.data.map Char.toUpper).contains b)

/-- A teacher's MBTI string is well-formed when it is absent, falsy, or
mentions exactly one letter of each of the four axes (every standard
16-type code qualifies). -/
def wellFormedMbti (t : TeacherTeamData) : Bool :=
  match t.mbtiType with
  | none => true
  | some m =>
      if m = "" then true
      else oneOf m 'E' 'I' && oneOf m 'S' 'N' && oneOf m 'T' 'F' && oneOf m 'J' 'P'

/-- A constant-80 compatibility score. -/
def score80 : CompatibilityScore :=
  { overall := 80, breakdown := ⟨0, 0, 0, 0, 0⟩, reasons := [] }

/-- A scoring callback returning 80 for every pairing. -/
def constScoreFn : CompatibilityScoreFn := fun _ _ _ => score80

/-- Demo student. -/
def studentA : StudentCandidate := { id := "s", analysisData := {} }

/-- Demo student with a distinct id. -/
def studentB : StudentCandidate := { id := "s2", analysisData := {} }

/-- Demo teacher with no pre-existing load. -/
def teacherT : TeacherCandidate := { id := "t", currentLoad := 0, analysisData := {} }

/-- Demo teacher whose starting load (10) already exceeds any small cap. -/
def teacherOverloaded : TeacherCandidate :=
  { id := "t", currentLoad := 10, analysisData := {} }

/-- Demo teacher whose id is the empty string (falsy in JS). -/
def emptyIdTeacher : TeacherCandidate :=
  { id := "", currentLoad := 0, analysisData := {} }

/-- Demo roster member carrying only student grades. -/
def demoTeamTeacher : TeacherTeamData :=
  { id := "t1", name := "n", role := "TEACHER", createdAt := 0,
    studentGrades := some [1, 1, 4] }

/-- Demo roster member whose MBTI string mentions only one axis letter. -/
def sOnlyTeacher : TeacherTeamData :=
  { id := "t2", name := "n", role := "TEACHER", createdAt := 0,
    mbtiType := some "S" }

/-- Demo roster member with a standard four-letter MBTI code. -/
def intjTeacher : TeacherTeamData :=
  { id := "t3", name := "n", role := "TEACHER", createdAt := 0,
    mbtiType := some "INTJ" }

/-- Two assignments to two distinct teachers: per-teacher counts `[1, 1]`. -/
def balancedAssignments : List Assignment :=
  [{ studentId := "s1", teacherId := "t1", score := 80 },
   { studentId := "s2", teacherId := "t2", score := 80 }]

end AIS

namespace AIS

/-! ### Assignment-engine helper lemmas -/

lemma rejects_some_zero (x : ℚ) : rejects (some 0) x = rejects none x := by
  simp [rejects]

lemma pickStep_skip {f : CompatibilityScoreFn} {avg : ℚ} {cap : ℕ}
    {thr : Option ℚ} {loads : String → ℕ} {st : StudentCandidate}
    {t : TeacherCandidate} (hc : cap ≤ loads t.id)
    (b : Option (String × CompatibilityScore)) :
    pickStep f avg cap thr loads st b t = b := by
  unfold pickStep
  simp [hc]

lemma pickStep_reject {f : CompatibilityScoreFn} {avg : ℚ} {cap : ℕ}
    {thr : Option ℚ} {loads : String → ℕ} {st : StudentCandidate}
    {t : TeacherCandidate} (hc : ¬ cap ≤ loads t.id)
    (hr : rejects thr (scoreAt f avg loads st t).overall = true)
    (b : Option (String × CompatibilityScore)) :
    pickStep f avg cap thr loads st b t = b := by
  unfold pickStep
  simp [hc, hr]

lemma pickStep_sel {f : CompatibilityScoreFn} {avg : ℚ} {cap : ℕ}
    {thr : Option ℚ} {loads : String → ℕ} {st : StudentCandidate}
    {t : TeacherCandidate} (hc : ¬ cap ≤ loads t.id)
    (hr : rejects thr (scoreAt f avg loads st t).overall = false)
    (b : Option (String × CompatibilityScore)) :
    pickStep f avg cap thr loads st b t = selStep b (t.id, scoreAt f avg loads st t) := by
  unfold pickStep selStep
  cases b <;> simp [hc, hr]

lemma assignStep_of_none {teachers : List TeacherCandidate}
    {f : CompatibilityScoreFn} {avg : ℚ} {cap : ℕ} {thr : Option ℚ}
    {L : String → ℕ} {A : List DetailedAssignment} {st : StudentCandidate}
    (h : pickBest teachers f avg cap thr L st = none) :
    assignStep teachers f avg cap thr (L, A) st = (L, A) := by
  unfold assignStep
  rw [h]

lemma assignStep_of_some {teachers : List TeacherCandidate}
    {f : CompatibilityScoreFn} {avg : ℚ} {cap : ℕ} {thr : Option ℚ}
    {L : String → ℕ} {A : List DetailedAssignment} {st : StudentCandidate}
    {tid : String} {sc : CompatibilityScore} (hne : ¬ tid = "")
    (h : pickBest teachers f avg cap thr L st = some (tid, sc)) :
    assignStep teachers f avg cap thr (L, A) st =
      (Function.update L tid (L tid + 1),
       A ++ [{ studentId := st.id, teacherId := tid, score := sc }]) := by
  unfold assignStep
  rw [h]
  show (if tid = "" then (L, A)
      else (Function.update L tid (L tid + 1),
        A ++ [{ studentId := st.id, teacherId := tid, score := sc }])) = _
  rw [if_neg hne]

lemma assignStep_of_some_empty {teachers : List TeacherCandidate}
    {f : CompatibilityScoreFn} {avg : ℚ} {cap : ℕ} {thr : Option ℚ}
    {L : String → ℕ} {A : List DetailedAssignment} {st : StudentCandidate}
    {sc : CompatibilityScore}
    (h : pickBest teachers f avg cap thr L st = some ("", sc)) :
    assignStep teachers f avg cap thr (L, A) st = (L, A) := by
  unfold assignStep
  rw [h]
  show (if ("" : String) = "" then (L, A)
      else (Function.update L "" (L "" + 1),
        A ++ [{ studentId := st.id, teacherId := "", score := sc }])) = _
  rw [if_pos rfl]

lemma pickFold_ids (f : CompatibilityScoreFn) (avg : ℚ) (cap : ℕ)
    (thr : Option ℚ) (loads : String → ℕ) (st : StudentCandidate) :
    ∀ (teachers : List TeacherCandidate) (b : Option (String × CompatibilityScore)),
      (∀ x : String × CompatibilityScore, b = some x → loads x.1 < cap) →
      ∀ tid sc, teachers.foldl (pickStep f avg cap thr loads st) b = some (tid, sc) →
        loads tid < cap
  | [], b, hb, tid, sc, h => hb _ h
  | t :: ts, b, hb, tid, sc, h => by
      rw [List.foldl_cons] at h
      refine pickFold_ids f avg cap thr loads st ts _ ?_ tid sc h
      intro x hx
      by_cases hc : cap ≤ loads t.id
      · rw [pickStep_skip hc] at hx
        exact hb x hx
      · rcases hr : rejects thr (scoreAt f avg loads st t).overall with _ | _
        · rw [pickStep_sel hc hr] at hx
          rcases b with _ | b0
          · simp only [selStep] at hx
            cases hx
            simpa using not_le.mp hc
          · simp only [selStep] at hx
            by_cases hcmp : b0.2.overall < (t.id, scoreAt f avg loads st t).2.overall
            · rw [if_pos hcmp] at hx
              cases hx
              simpa using not_le.mp hc
            · rw [if_neg hcmp] at hx
              exact hb x hx
        · rw [pickStep_reject hc hr] at hx
          exact hb x hx

lemma pickBest_load_lt {teachers : List TeacherCandidate}
    {f : CompatibilityScoreFn} {avg : ℚ} {cap : ℕ} {thr : Option ℚ}
    {loads : String → ℕ} {st : StudentCandidate} {tid : String}
    {sc : CompatibilityScore}
    (h : pickBest teachers f avg cap thr loads st = some (tid, sc)) :
    loads tid < cap := by
  unfold pickBest at h
  exact pickFold_ids f avg cap thr loads st teachers none (by intro x hx; cases hx) tid sc h

lemma assignFold_ids (teachers : List TeacherCandidate) (f : CompatibilityScoreFn)
    (avg : ℚ) (cap : ℕ) (thr : Option ℚ) :
    ∀ (students : List StudentCandidate) (L : String → ℕ)
      (A : List DetailedAssignment),
      ∃ w : List DetailedAssignment,
        (students.foldl (assignStep teachers f avg cap thr) (L, A)).2 = A ++ w ∧
        (w.map DetailedAssignment.studentId).Sublist (students.map StudentCandidate.id)
  | [], L, A => ⟨[], by simp, by simp⟩
  | st :: ss, L, A => by
      rw [List.foldl_cons]
      rcases hpick : pickBest teachers f avg cap thr L st with _ | ⟨tid, sc⟩
      · rw [assignStep_of_none hpick]
        obtain ⟨w, hw, hsub⟩ := assignFold_ids teachers f avg cap thr ss L A
        exact ⟨w, hw, by
          simpa using hsub.trans (List.sublist_cons_self st.id (ss.map StudentCandidate.id))⟩
      · by_cases hemp : tid = ""
        · subst hemp
          rw [assignStep_of_some_empty hpick]
          obtain ⟨w, hw, hsub⟩ := assignFold_ids teachers f avg cap thr ss L A
          exact ⟨w, hw, by
            simpa using hsub.trans (List.sublist_cons_self st.id (ss.map StudentCandidate.id))⟩
        · rw [assignStep_of_some hemp hpick]
          obtain ⟨w, hw, hsub⟩ := assignFold_ids teachers f avg cap thr ss
            (Function.update L tid (L tid + 1))
            (A ++ [{ studentId := st.id, teacherId := tid, score := sc }])
          refine ⟨{ studentId := st.id, teacherId := tid, score := sc } :: w, ?_, ?_⟩
          · rw [hw, List.append_assoc]
            rfl
          · simpa using List.Sublist.cons₂ st.id hsub

lemma assignFold_load (teachers : List TeacherCandidate) (f : CompatibilityScoreFn)
    (avg : ℚ) (cap : ℕ) (thr : Option ℚ) (idt : String) :
    ∀ (students : List StudentCandidate) (L : String → ℕ)
      (A : List DetailedAssignment),
      (students.foldl (assignStep teachers f avg cap thr) (L, A)).1 idt +
          A.countP (fun a => a.teacherId = idt) =
        L idt +
          (students.foldl (assignStep teachers f avg cap thr) (L, A)).2.countP
            (fun a => a.teacherId = idt)
  | [], L, A => by simp
  | st :: ss, L, A => by
      rw [List.foldl_cons]
      rcases hpick : pickBest teachers f avg cap thr L st with _ | ⟨tid, sc⟩
      · rw [assignStep_of_none hpick]
        exact assignFold_load teachers f avg cap thr idt ss L A
      · by_cases hemp : tid = ""
        · subst hemp
          rw [assignStep_of_some_empty hpick]
          exact assignFold_load teachers f avg cap thr idt ss L A
        rw [assignStep_of_some hemp hpick]
        have ih := assignFold_load teachers f avg cap thr idt ss
          (Function.update L tid (L tid + 1))
          (A ++ [{ studentId := st.id, teacherId := tid, score := sc }])
        rw [List.countP_append] at ih
        by_cases htid : tid = idt
        · subst htid
          simp only [List.countP_cons, List.countP_nil, Function.update_same] at ih
          simp at ih
          omega
        · have hne : idt ≠ tid := fun h => htid h.symm
          rw [Function.update_noteq hne] at ih
          simp only [List.countP_cons, List.countP_nil] at ih
          simp [htid] at ih
          omega

lemma assignFold_load_le (teachers : List TeacherCandidate) (f : CompatibilityScoreFn)
    (avg : ℚ) (cap : ℕ) (thr : Option ℚ) (B : String → ℕ) :
    ∀ (students : List StudentCandidate) (L : String → ℕ)
      (A : List DetailedAssignment),
      (∀ i, L i ≤ max (B i) cap) →
      ∀ i, (students.foldl (assignStep teachers f avg cap thr) (L, A)).1 i ≤ max (B i) cap
  | [], L, A, hL, i => hL i
  | st :: ss, L, A, hL, i => by
      rw [List.foldl_cons]
      rcases hpick : pickBest teachers f avg cap thr L st with _ | ⟨tid, sc⟩
      · rw [assignStep_of_none hpick]
        exact assignFold_load_le teachers f avg cap thr B ss L A hL i
      · by_cases hemp : tid = ""
        · subst hemp
          rw [assignStep_of_some_empty hpick]
          exact assignFold_load_le teachers f avg cap thr B ss L A hL i
        · rw [assignStep_of_some hemp hpick]
          refine assignFold_load_le teachers f avg cap thr B ss _ _ ?_ i
          intro i2
          rw [Function.update_apply]
          split
          · have hlt : L tid < cap := pickBest_load_lt hpick
            exact le_trans (by omega) (le_max_right (B i2) cap)
          · exact hL i2

lemma countP_studentId_le_one {r : List DetailedAssignment}
    (h : (r.map DetailedAssignment.studentId).Nodup) (sid : String) :
    r.countP (fun a => a.studentId = sid) ≤ 1 := by
  have hmap : r.countP (fun a => a.studentId = sid)
      = (r.map DetailedAssignment.studentId).countP (fun x => x = sid) := by
    rw [List.countP_map]
    rfl
  rw [hmap]
  clear hmap
  generalize r.map DetailedAssignment.studentId = l at h
  induction l with
  | nil => simp
  | cons a l ih =>
      rw [List.nodup_cons] at h
      rw [List.countP_cons]
      by_cases ha : a = sid
      · subst ha
        have hz : l.countP (fun x => x = a) = 0 := by
          rw [List.countP_eq_zero]
          intro x hx
          simp only [decide_eq_true_eq]
          intro he
          exact h.1 (he ▸ hx)
        simp [hz]
      · simp only [ha, decide_eq_false ha]
        simpa using ih h.2

end AIS

namespace AIS

/-! ### Claim theorems for the assignment engine -/

lemma guard_false_of_ne_nil {students : List StudentCandidate}
    {teachers : List TeacherCandidate} (hT : teachers ≠ []) (hS : students ≠ []) :
    ¬ (teachers.length = 0 ∨ students.length = 0) := by
  rcases teachers with _ | _
  · exact absurd rfl hT
  rcases students with _ | _
  · exact absurd rfl hS
  simp

/-- C9: `generateAutoAssignment` returns the empty list immediately when
either input list is empty, and a student for whom every teacher is at
capacity or below the threshold is simply skipped: the inner scan returns
no pick, and a pick-less per-student step leaves the running state
unchanged, so the student is omitted and the (total) function cannot
fail. -/
theorem assignment_degenerate_total :
    (∀ (teachers : List TeacherCandidate) (f : CompatibilityScoreFn)
        (o : AutoAssignmentOptions), generateAutoAssignment [] teachers f o = [])
    ∧ (∀ (students : List StudentCandidate) (f : CompatibilityScoreFn)
        (o : AutoAssignmentOptions), generateAutoAssignment students [] f o = [])
    ∧ (∀ (teachers : List TeacherCandidate) (f : CompatibilityScoreFn)
        (avg : ℚ) (cap : ℕ) (thr : Option ℚ) (loads : String → ℕ)
        (st : StudentCandidate),
        (∀ t ∈ teachers, cap ≤ loads t.id ∨
          rejects thr (scoreAt f avg loads st t).overall = true) →
        pickBest teachers f avg cap thr loads st = none)
    ∧ (∀ (teachers : List TeacherCandidate) (f : CompatibilityScoreFn)
        (avg : ℚ) (cap : ℕ) (thr : Option ℚ) (L : String → ℕ)
        (A : List DetailedAssignment) (st : StudentCandidate),
        pickBest teachers f avg cap thr L st = none →
        assignStep teachers f avg cap thr (L, A) st = (L, A)) := by
  refine ⟨?_, ?_, ?_, ?_⟩
  · intro teachers f o
    simp [generateAutoAssignment]
  · intro students f o
    simp [generateAutoAssignment]
  · intro teachers f avg cap thr loads st
    unfold pickBest
    induction teachers with
    | nil => intro _; rfl
    | cons t ts ih =>
        intro h
        have hstep : pickStep f avg cap thr loads st none t = none := by
          rcases h t (List.mem_cons_self t ts) with h1 | h2
          · exact pickStep_skip h1 none
          · by_cases hc : cap ≤ loads t.id
            · exact pickStep_skip hc none
            · exact pickStep_reject hc h2 none
        rw [List.foldl_cons, hstep]
        exact ih (fun x hx => h x (List.mem_cons_of_mem t hx))
  · intro teachers f avg cap thr L A st h
    exact assignStep_of_none h

/-- Witness for C9: a single teacher already at the cap yields no pick for
the student. -/
theorem assignment_degenerate_total_witness :
    pickBest [teacherOverloaded] constScoreFn 1 2 none
      (initialLoads [teacherOverloaded]) studentA = none :=
  assignment_degenerate_total.2.2.1 [teacherOverloaded] constScoreFn 1 2 none
    (initialLoads [teacherOverloaded]) studentA (by decide)

lemma pickBest_threshold_zero (teachers : List TeacherCandidate)
    (f : CompatibilityScoreFn) (avg : ℚ) (cap : ℕ) (loads : String → ℕ)
    (st : StudentCandidate) :
    pickBest teachers f avg cap (some 0) loads st =
      pickBest teachers f avg cap none loads st := by
  unfold pickBest
  apply List.foldl_ext
  intro b t _
  unfold pickStep
  simp only [rejects_some_zero]

lemma assignFold_threshold_zero (students : List StudentCandidate)
    (teachers : List TeacherCandidate) (f : CompatibilityScoreFn)
    (avg : ℚ) (cap : ℕ) :
    assignFold students teachers f avg cap (some 0) =
      assignFold students teachers f avg cap none := by
  unfold assignFold
  apply List.foldl_ext
  intro acc st _
  unfold assignStep
  rw [pickBest_threshold_zero]

/-- C10: setting `minCompatibilityThreshold` to 0 yields exactly the same
assignments as leaving the threshold unset, because the truthiness check
treats the threshold 0 as absent. -/
theorem thresholdZero_eq_unset (students : List StudentCandidate)
    (teachers : List TeacherCandidate) (f : CompatibilityScoreFn) (m : Option ℕ) :
    generateAutoAssignment students teachers f
        { maxStudentsPerTeacher := m, minCompatibilityThreshold := some 0 }
      = generateAutoAssignment students teachers f
        { maxStudentsPerTeacher := m, minCompatibilityThreshold := none } := by
  unfold generateAutoAssignment
  by_cases h : teachers.length = 0 ∨ students.length = 0
  · rw [if_pos h, if_pos h]
  · rw [if_neg h, if_neg h]
    show (assignFold students teachers f
        ((students.length : ℚ) / (teachers.length : ℚ))
        (maxLoadOf { maxStudentsPerTeacher := m, minCompatibilityThreshold := some 0 }
          students.length teachers.length) (some 0)).2
      = (assignFold students teachers f
        ((students.length : ℚ) / (teachers.length : ℚ))
        (maxLoadOf { maxStudentsPerTeacher := m, minCompatibilityThreshold := none }
          students.length teachers.length) none).2
    have hcap : maxLoadOf { maxStudentsPerTeacher := m, minCompatibilityThreshold := some 0 }
          students.length teachers.length
        = maxLoadOf { maxStudentsPerTeacher := m, minCompatibilityThreshold := none }
          students.length teachers.length := rfl
    rw [hcap, assignFold_threshold_zero]

/-- Counterexample for C4: with two input students sharing the id `s`,
the returned list carries that studentId twice, so at-most-one-per-id
fails on such a call. -/
theorem assignment_unique_counterexample :
    ¬ ((generateAutoAssignment [studentA, studentA] [teacherT] constScoreFn
        { maxStudentsPerTeacher := some 5 }).countP
          (fun a => a.studentId = "s") ≤ 1) := by decide

/-- C4 (amended): unconditionally the output studentIds form a
subsequence of the input student ids (same relative order) and the
output length is at most the number of students; provided the input
students carry pairwise distinct ids, no studentId repeats in the
output. -/
theorem assignment_unique_of_nodup (students : List StudentCandidate)
    (teachers : List TeacherCandidate) (f : CompatibilityScoreFn)
    (o : AutoAssignmentOptions) :
    ((generateAutoAssignment students teachers f o).map
        DetailedAssignment.studentId).Sublist (students.map StudentCandidate.id)
    ∧ (generateAutoAssignment students teachers f o).length ≤ students.length
    ∧ ((students.map StudentCandidate.id).Nodup →
        ∀ sid : String,
          (generateAutoAssignment students teachers f o).countP
            (fun a => a.studentId = sid) ≤ 1) := by
  have hsub : ((generateAutoAssignment students teachers f o).map
      DetailedAssignment.studentId).Sublist (students.map StudentCandidate.id) := by
    unfold generateAutoAssignment
    split
    · simp
    · obtain ⟨w, hw, hs⟩ := assignFold_ids teachers f
        ((students.length : ℚ) / (teachers.length : ℚ))
        (maxLoadOf o students.length teachers.length) o.minCompatibilityThreshold
        students (initialLoads teachers) []
      unfold assignFold
      rw [hw]
      simpa using hs
  have hlen : (generateAutoAssignment students teachers f o).length ≤ students.length := by
    have := hsub.length_le
    simpa using this
  exact ⟨hsub, hlen, fun h sid => countP_studentId_le_one (hsub.nodup h) sid⟩

/-- Witness for C4 at two students with distinct ids and one teacher. -/
theorem assignment_unique_of_nodup_witness :
    ((generateAutoAssignment [studentA, studentB] [teacherT] constScoreFn {}).map
        DetailedAssignment.studentId).Sublist
      ([studentA, studentB].map StudentCandidate.id)
    ∧ (generateAutoAssignment [studentA, studentB] [teacherT] constScoreFn {}).length
        ≤ [studentA, studentB].length
    ∧ ∀ sid : String,
        (generateAutoAssignment [studentA, studentB] [teacherT] constScoreFn {}).countP
          (fun a => a.studentId = sid) ≤ 1 :=
  ⟨(assignment_unique_of_nodup [studentA, studentB] [teacherT] constScoreFn {}).1,
   (assignment_unique_of_nodup [studentA, studentB] [teacherT] constScoreFn {}).2.1,
   (assignment_unique_of_nodup [studentA, studentB] [teacherT] constScoreFn {}).2.2 (by decide)⟩

/-- Counterexample for C5: a teacher whose starting load (10) already
exceeds the supplied cap (2) keeps its overload: starting load plus
received assignments exceeds the effective cap. -/
theorem loadCap_counterexample :
    ¬ (initialLoads [teacherOverloaded] ("t") +
        (generateAutoAssignment [studentA] [teacherOverloaded] constScoreFn
          { maxStudentsPerTeacher := some 2 }).countP (fun a => a.teacherId = "t")
      ≤ maxLoadOf { maxStudentsPerTeacher := some 2 } 1 1) := by decide

/-- C5 (amended): for non-empty inputs the number of assignments is at
most the number of students, and each teacherId's post-run load (starting
load plus received assignments) is at most the maximum of its starting
load and the effective cap — a teacher starting at or above the cap
receives nothing, and one starting below it never ends above it. -/
theorem loadCap_bounded (students : List StudentCandidate)
    (teachers : List TeacherCandidate) (f : CompatibilityScoreFn)
    (o : AutoAssignmentOptions) (hT : teachers ≠ []) (hS : students ≠ []) :
    (generateAutoAssignment students teachers f o).length ≤ students.length
    ∧ ∀ idt : String,
        initialLoads teachers idt +
            (generateAutoAssignment students teachers f o).countP
              (fun a => a.teacherId = idt)
          ≤ max (initialLoads teachers idt)
              (maxLoadOf o students.length teachers.length) := by
  have hguard := guard_false_of_ne_nil hT hS
  constructor
  · unfold generateAutoAssignment
    rw [if_neg hguard]
    obtain ⟨w, hw, hs⟩ := assignFold_ids teachers f
      ((students.length : ℚ) / (teachers.length : ℚ))
      (maxLoadOf o students.length teachers.length) o.minCompatibilityThreshold
      students (initialLoads teachers) []
    unfold assignFold
    rw [hw]
    have := hs.length_le
    simpa using this
  · intro idt
    unfold generateAutoAssignment
    rw [if_neg hguard]
    have hcount := assignFold_load teachers f
      ((students.length : ℚ) / (teachers.length : ℚ))
      (maxLoadOf o students.length teachers.length) o.minCompatibilityThreshold
      idt students (initialLoads teachers) []
    have hle := assignFold_load_le teachers f
      ((students.length : ℚ) / (teachers.length : ℚ))
      (maxLoadOf o students.length teachers.length) o.minCompatibilityThreshold
      (initialLoads teachers) students (initialLoads teachers) []
      (fun i => le_max_left _ _) idt
    unfold assignFold
    simp only [List.countP_nil, Nat.add_zero] at hcount
    omega

/-- Witness for C5 at one student and one unloaded teacher. -/
theorem loadCap_bounded_witness :
    (generateAutoAssignment [studentA] [teacherT] constScoreFn {}).length ≤ [studentA].length
    ∧ ∀ idt : String,
        initialLoads [teacherT] idt +
            (generateAutoAssignment [studentA] [teacherT] constScoreFn {}).countP
              (fun a => a.teacherId = idt)
          ≤ max (initialLoads [teacherT] idt)
              (maxLoadOf {} [studentA].length [teacherT].length) :=
  loadCap_bounded [studentA] [teacherT] constScoreFn {} (by decide) (by decide)

end AIS

namespace AIS

/-! ### C3: the engine implements the spec-described algorithm -/

lemma specCandidates_cons_skip {t : TeacherCandidate} {ts : List TeacherCandidate}
    {f : CompatibilityScoreFn} {avg : ℚ} {cap : ℕ} {thr : Option ℚ}
    {loads : String → ℕ} {st : StudentCandidate} (hc : ¬ loads t.id < cap) :
    specCandidates (t :: ts) f avg cap thr loads st =
      specCandidates ts f avg cap thr loads st := by
  cases thr <;> simp [specCandidates, List.filter_cons, hc]

lemma specCandidates_none_cons_keep {t : TeacherCandidate} {ts : List TeacherCandidate}
    {f : CompatibilityScoreFn} {avg : ℚ} {cap : ℕ}
    {loads : String → ℕ} {st : StudentCandidate} (hc : loads t.id < cap) :
    specCandidates (t :: ts) f avg cap none loads st =
      (t.id, scoreAt f avg loads st t) :: specCandidates ts f avg cap none loads st := by
  simp [specCandidates, List.filter_cons, hc]

lemma specCandidates_some_cons_keep {t : TeacherCandidate} {ts : List TeacherCandidate}
    {f : CompatibilityScoreFn} {avg : ℚ} {cap : ℕ} {τ : ℚ}
    {loads : String → ℕ} {st : StudentCandidate} (hc : loads t.id < cap)
    (hk : τ ≤ (scoreAt f avg loads st t).overall) :
    specCandidates (t :: ts) f avg cap (some τ) loads st =
      (t.id, scoreAt f avg loads st t) :: specCandidates ts f avg cap (some τ) loads st := by
  simp [specCandidates, List.filter_cons, hc, hk]

lemma specCandidates_some_cons_drop {t : TeacherCandidate} {ts : List TeacherCandidate}
    {f : CompatibilityScoreFn} {avg : ℚ} {cap : ℕ} {τ : ℚ}
    {loads : String → ℕ} {st : StudentCandidate} (hc : loads t.id < cap)
    (hk : ¬ τ ≤ (scoreAt f avg loads st t).overall) :
    specCandidates (t :: ts) f avg cap (some τ) loads st =
      specCandidates ts f avg cap (some τ) loads st := by
  simp [specCandidates, List.filter_cons, hc, hk]

lemma pickFold_eq_spec (f : CompatibilityScoreFn) (avg : ℚ) (cap : ℕ)
    (thr : Option ℚ) (loads : String → ℕ) (st : StudentCandidate)
    (hf : ∀ td sd a, 0 ≤ (f td sd a).overall) :
    ∀ (teachers : List TeacherCandidate) (b : Option (String × CompatibilityScore)),
      teachers.foldl (pickStep f avg cap thr loads st) b
        = (specCandidates teachers f avg cap thr loads st).foldl selStep b
  | [], b => by
      cases thr <;> simp [specCandidates]
  | t :: ts, b => by
      rw [List.foldl_cons]
      by_cases hc : cap ≤ loads t.id
      · rw [pickStep_skip hc, specCandidates_cons_skip (not_lt.mpr hc)]
        exact pickFold_eq_spec f avg cap thr loads st hf ts b
      · have hc2 : loads t.id < cap := not_le.mp hc
        rcases thr with _ | τ
        · have hr : rejects none (scoreAt f avg loads st t).overall = false := rfl
          rw [pickStep_sel hc hr, specCandidates_none_cons_keep hc2, List.foldl_cons]
          exact pickFold_eq_spec f avg cap none loads st hf ts _
        · by_cases hτ : τ = 0
          · subst hτ
            have hr : rejects (some 0) (scoreAt f avg loads st t).overall = false := by
              simp [rejects]
            have hk : (0 : ℚ) ≤ (scoreAt f avg loads st t).overall := hf _ _ _
            rw [pickStep_sel hc hr, specCandidates_some_cons_keep hc2 hk, List.foldl_cons]
            exact pickFold_eq_spec f avg cap (some 0) loads st hf ts _
          · by_cases hlt : (scoreAt f avg loads st t).overall < τ
            · have hr : rejects (some τ) (scoreAt f avg loads st t).overall = true := by
                simp [rejects, hτ, hlt]
              rw [pickStep_reject hc hr, specCandidates_some_cons_drop hc2 (not_le.mpr hlt)]
              exact pickFold_eq_spec f avg cap (some τ) loads st hf ts b
            · have hr : rejects (some τ) (scoreAt f avg loads st t).overall = false := by
                simp [rejects, hτ, hlt]
              rw [pickStep_sel hc hr, specCandidates_some_cons_keep hc2 (not_lt.mp hlt),
                List.foldl_cons]
              exact pickFold_eq_spec f avg cap (some τ) loads st hf ts _

lemma pickBest_eq_specSelect {teachers : List TeacherCandidate}
    {f : CompatibilityScoreFn} {avg : ℚ} {cap : ℕ} {thr : Option ℚ}
    {loads : String → ℕ} {st : StudentCandidate}
    (hf : ∀ td sd a, 0 ≤ (f td sd a).overall) :
    pickBest teachers f avg cap thr loads st =
      specSelect (specCandidates teachers f avg cap thr loads st) :=
  pickFold_eq_spec f avg cap thr loads st hf teachers none

lemma specStep_nil_teachers (f : CompatibilityScoreFn) (avg : ℚ) (cap : ℕ)
    (thr : Option ℚ) (acc : (String → ℕ) × List DetailedAssignment)
    (st : StudentCandidate) : specStep [] f avg cap thr acc st = acc := by
  unfold specStep
  have h : specCandidates [] f avg cap thr acc.1 st = [] := by
    cases thr <;> rfl
  rw [h]
  rfl

lemma specFold_nil_teachers (f : CompatibilityScoreFn) (avg : ℚ) (cap : ℕ)
    (thr : Option ℚ) :
    ∀ (students : List StudentCandidate)
      (acc : (String → ℕ) × List DetailedAssignment),
      students.foldl (specStep [] f avg cap thr) acc = acc
  | [], _ => rfl
  | st :: ss, acc => by
      rw [List.foldl_cons, specStep_nil_teachers]
      exact specFold_nil_teachers f avg cap thr ss acc

/-- C3: under the documented score range (non-negative overall scores),
`generateAutoAssignment` computes exactly the procedure the spec
describes: students in input order, teachers in input order, cap-skip,
threshold filter, strict-max first-seen selection, commit and increment. -/
lemma specStep_of_none {teachers : List TeacherCandidate}
    {f : CompatibilityScoreFn} {avg : ℚ} {cap : ℕ} {thr : Option ℚ}
    {acc : (String → ℕ) × List DetailedAssignment} {st : StudentCandidate}
    (h : specSelect (specCandidates teachers f avg cap thr acc.1 st) = none) :
    specStep teachers f avg cap thr acc st = acc := by
  unfold specStep
  rw [h]

lemma specStep_of_some {teachers : List TeacherCandidate}
    {f : CompatibilityScoreFn} {avg : ℚ} {cap : ℕ} {thr : Option ℚ}
    {acc : (String → ℕ) × List DetailedAssignment} {st : StudentCandidate}
    {tid : String} {sc : CompatibilityScore}
    (h : specSelect (specCandidates teachers f avg cap thr acc.1 st) = some (tid, sc)) :
    specStep teachers f avg cap thr acc st =
      (Function.update acc.1 tid (acc.1 tid + 1),
       acc.2 ++ [{ studentId := st.id, teacherId := tid, score := sc }]) := by
  unfold specStep
  rw [h]

lemma pickFold_id_ne (f : CompatibilityScoreFn) (avg : ℚ) (cap : ℕ)
    (thr : Option ℚ) (loads : String → ℕ) (st : StudentCandidate) :
    ∀ (teachers : List TeacherCandidate) (b : Option (String × CompatibilityScore)),
      (∀ t ∈ teachers, ¬ t.id = "") →
      (∀ x : String × CompatibilityScore, b = some x → ¬ x.1 = "") →
      ∀ tid sc, teachers.foldl (pickStep f avg cap thr loads st) b = some (tid, sc) →
        ¬ tid = ""
  | [], b, _, hb, tid, sc, h => hb _ h
  | t :: ts, b, hid, hb, tid, sc, h => by
      rw [List.foldl_cons] at h
      refine pickFold_id_ne f avg cap thr loads st ts _
        (fun x hx => hid x (List.mem_cons_of_mem t hx)) ?_ tid sc h
      intro x hx
      by_cases hc : cap ≤ loads t.id
      · rw [pickStep_skip hc] at hx
        exact hb x hx
      · rcases hr : rejects thr (scoreAt f avg loads st t).overall with _ | _
        · rw [pickStep_sel hc hr] at hx
          rcases b with _ | b0
          · simp only [selStep] at hx
            cases hx
            exact hid t (List.mem_cons_self t ts)
          · simp only [selStep] at hx
            by_cases hcmp : b0.2.overall < (t.id, scoreAt f avg loads st t).2.overall
            · rw [if_pos hcmp] at hx
              cases hx
              exact hid t (List.mem_cons_self t ts)
            · rw [if_neg hcmp] at hx
              exact hb x hx
        · rw [pickStep_reject hc hr] at hx
          exact hb x hx

lemma pickBest_id_ne {teachers : List TeacherCandidate}
    {f : CompatibilityScoreFn} {avg : ℚ} {cap : ℕ} {thr : Option ℚ}
    {loads : String → ℕ} {st : StudentCandidate} {tid : String}
    {sc : CompatibilityScore} (hid : ∀ t ∈ teachers, ¬ t.id = "")
    (h : pickBest teachers f avg cap thr loads st = some (tid, sc)) :
    ¬ tid = "" := by
  unfold pickBest at h
  exact pickFold_id_ne f avg cap thr loads st teachers none hid
    (by intro x hx; cases hx) tid sc h

/-- Counterexample for C3: a teacher whose id is the empty string.  The
selection still picks it, but the commit is guarded by the truthiness
check `if (bestTeacherId && bestScore)` and `""` is falsy, so the code
returns no assignment while the spec-described procedure (which always
commits the selected pairing) returns one. -/
theorem followsSpec_counterexample :
    generateAutoAssignment [studentA] [emptyIdTeacher] constScoreFn
        { maxStudentsPerTeacher := some 5 } ≠
      specAssign [studentA] [emptyIdTeacher] constScoreFn
        { maxStudentsPerTeacher := some 5 } := by decide

/-- C3 (amended): for teachers whose ids are truthy (non-empty) strings —
every real id — and under the documented score range (non-negative
overall scores), `generateAutoAssignment` computes exactly the procedure
the spec describes: students in input order, teachers in input order,
cap-skip, threshold filter, strict-max first-seen selection, commit and
increment.  (With an empty-string teacher id the engine's falsy-guard
skips the commit the spec prescribes.) -/
theorem generateAutoAssignment_follows_spec (students : List StudentCandidate)
    (teachers : List TeacherCandidate) (f : CompatibilityScoreFn)
    (o : AutoAssignmentOptions)
    (hid : ∀ t ∈ teachers, ¬ t.id = "")
    (hf : ∀ td sd a, 0 ≤ (f td sd a).overall) :
    generateAutoAssignment students teachers f o = specAssign students teachers f o := by
  unfold generateAutoAssignment specAssign
  by_cases h : teachers.length = 0 ∨ students.length = 0
  · rw [if_pos h]
    rcases h with h | h
    · have hT : teachers = [] := List.length_eq_zero.mp h
      subst hT
      rw [specFold_nil_teachers]
    · have hS : students = [] := List.length_eq_zero.mp h
      subst hS
      rfl
  · rw [if_neg h]
    unfold assignFold
    have hfold : students.foldl
        (assignStep teachers f ((students.length : ℚ) / (teachers.length : ℚ))
          (maxLoadOf o students.length teachers.length) o.minCompatibilityThreshold)
        (initialLoads teachers, [])
      = students.foldl
        (specStep teachers f ((students.length : ℚ) / (teachers.length : ℚ))
          (maxLoadOf o students.length teachers.length) o.minCompatibilityThreshold)
        (initialLoads teachers, []) := by
      apply List.foldl_ext
      intro acc st _
      rcases hsel : specSelect (specCandidates teachers f
          ((students.length : ℚ) / (teachers.length : ℚ))
          (maxLoadOf o students.length teachers.length)
          o.minCompatibilityThreshold acc.1 st) with _ | ⟨tid, sc⟩
      · rw [specStep_of_none hsel, assignStep_of_none (by rw [pickBest_eq_specSelect hf, hsel])]
      · have hpick : pickBest teachers f
            ((students.length : ℚ) / (teachers.length : ℚ))
            (maxLoadOf o students.length teachers.length)
            o.minCompatibilityThreshold acc.1 st = some (tid, sc) := by
          rw [pickBest_eq_specSelect hf, hsel]
        have hne : ¬ tid = "" := pickBest_id_ne hid hpick
        rcases acc with ⟨L, A⟩
        rw [specStep_of_some hsel, assignStep_of_some hne hpick]
    rw [hfold]

/-- Witness for C3: one student, one non-empty-id teacher, the
constant-80 scorer. -/
theorem generateAutoAssignment_follows_spec_witness :
    generateAutoAssignment [studentA] [teacherT] constScoreFn {} =
      specAssign [studentA] [teacherT] constScoreFn {} :=
  generateAutoAssignment_follows_spec [studentA] [teacherT] constScoreFn {}
    (by decide) (by intro td sd a; norm_num [constScoreFn, score80])

end AIS

namespace AIS

/-! ### C1: Shannon diversity at a single category -/

/-- C1 (code bug): at `counts = [5]`, `total = 5` — one category holding
all the mass — the code computes `-0 / Math.log(1) = 0/0 = NaN`, and NaN
passes through the `Math.min(Math.max(·,0),100)` clamp, so
`calculateShannonDiversity` returns NaN instead of the 0 the claim and
spec require. -/
theorem shannonDiversity_single_category_nan :
    calculateShannonDiversity [(5 : ℝ)] 5 = JSNum.nan := by
  have h5 : ¬ ((5 : ℝ) = 0) := by norm_num
  have hsum : List.foldl
      (fun s c => if c = 0 then s else s + c / 5 * Real.log (c / 5)) 0 [(5 : ℝ)] = 0 := by
    simp only [List.foldl_cons, List.foldl_nil, if_neg h5]
    rw [show (5 : ℝ) / 5 = 1 from by norm_num, Real.log_one]
    ring
  unfold calculateShannonDiversity
  rw [if_neg h5]
  simp only [hsum]
  norm_num [jsLog, jsDiv, jsMul100, jsMax, jsMin, Real.log_one]

/-! ### C2: expertise coverage tallies and weak lists -/

lemma recGet_recBump (k k2 : String) (l : List (String × ℕ)) :
    recGet (recBump l k) k2 = if k = k2 then recGet l k2 + 1 else recGet l k2 := by
  induction l with
  | nil =>
      by_cases h : k = k2 <;> simp [recBump, recGet, h]
  | cons p rest ih =>
      obtain ⟨k1, v⟩ := p
      by_cases h1 : k1 = k
      · subst h1
        by_cases h2 : k1 = k2 <;> simp [recBump, recGet, h2]
      · by_cases h2 : k1 = k2
        · subst h2
          have h3 : ¬ k = k1 := fun h => h1 h.symm
          simp [recBump, recGet, h1, h3]
        · simp [recBump, recGet, h1, h2, ih]

lemma recGet_append_zero (l : List (String × ℕ)) (k k2 : String) :
    recGet (l ++ [(k, 0)]) k2 = recGet l k2 := by
  induction l with
  | nil => by_cases h : k = k2 <;> simp [recGet, h]
  | cons p rest ih =>
      obtain ⟨k1, v⟩ := p
      by_cases h : k1 = k2 <;> simp [recGet, h, ih]

lemma recGet_recEnsure (l : List (String × ℕ)) (k k2 : String) :
    recGet (recEnsure l k) k2 = recGet l k2 := by
  unfold recEnsure
  split
  · rfl
  · exact recGet_append_zero l k k2

lemma recGet_foldl_recEnsure (ks : List String) :
    ∀ (l : List (String × ℕ)) (k2 : String),
      recGet (ks.foldl recEnsure l) k2 = recGet l k2 := by
  induction ks with
  | nil => intro l k2; rfl
  | cons k ks ih =>
      intro l k2
      rw [List.foldl_cons, ih, recGet_recEnsure]

lemma recGet_gradeFold (gs : List ℕ) :
    ∀ (l : List (String × ℕ)) (k : String),
      recGet (gs.foldl (fun l2 g => recBump l2 (gradeToLabel g)) l) k =
        recGet l k + (gs.map gradeToLabel).count k := by
  induction gs with
  | nil => intro l k; simp
  | cons g gs ih =>
      intro l k
      rw [List.foldl_cons, ih, recGet_recBump, List.map_cons, List.count_cons]
      by_cases h : gradeToLabel g = k <;> simp [h, beq_iff_eq] <;> omega

lemma recGet_gradeTallyFold (teachers : List TeacherTeamData) :
    ∀ (l : List (String × ℕ)) (k : String),
      recGet (teachers.foldl (fun l2 t =>
          (t.studentGrades.getD []).foldl (fun l3 g => recBump l3 (gradeToLabel g)) l2) l) k =
        recGet l k + labelOccurrences k teachers := by
  induction teachers with
  | nil => intro l k; simp [labelOccurrences]
  | cons t ts ih =>
      intro l k
      rw [List.foldl_cons, ih, recGet_gradeFold]
      simp only [labelOccurrences, List.map_cons, List.sum_cons]
      omega

lemma recGet_gradesTally (teachers : List TeacherTeamData) (k : String) :
    recGet (gradesTally teachers) k = labelOccurrences k teachers := by
  unfold gradesTally gradeTallyRaw
  rw [recGet_foldl_recEnsure, recGet_gradeTallyFold]
  simp [recGet]

lemma recGet_subjectsTally (k : String) : recGet subjectsTally k = 0 := by
  unfold subjectsTally
  rw [recGet_foldl_recEnsure]
  rfl

lemma gradeToLabel_head (g : ℕ) :
    (gradeToLabel g).data.head? = some '중' ∨ (gradeToLabel g).data.head? = some '고' := by
  unfold gradeToLabel
  split
  · left
    rw [String.data_append]
    rfl
  · right
    rw [String.data_append]
    rfl

lemma gradeToLabel_ne_subject (g : ℕ) (s : String) (hs : s ∈ SUBJECTS) :
    gradeToLabel g ≠ s := by
  intro he
  fin_cases hs <;>
    rcases gradeToLabel_head g with h | h <;> rw [he] at h <;> exact absurd h (by decide)

lemma labelOccurrences_subject_zero (s : String) (hs : s ∈ SUBJECTS)
    (teachers : List TeacherTeamData) : labelOccurrences s teachers = 0 := by
  unfold labelOccurrences
  rw [List.sum_eq_zero]
  intro x hx
  rw [List.mem_map] at hx
  obtain ⟨t, _, rfl⟩ := hx
  rw [List.count_eq_zero]
  intro hmem
  rw [List.mem_map] at hmem
  obtain ⟨g, _, hg⟩ := hmem
  exact gradeToLabel_ne_subject g s hs hg

lemma avgSubjectCoverage_eq (teachers : List TeacherTeamData) :
    avgSubjectCoverage teachers = (teachers.length : ℚ) / (SUBJECTS.length : ℚ) := by
  unfold avgSubjectCoverage
  split
  · rfl
  · rename_i h
    have h0 : teachers.length = 0 := by omega
    rw [h0]
    norm_num

lemma avgGradeCoverage_eq (teachers : List TeacherTeamData) :
    avgGradeCoverage teachers = (teachers.length : ℚ) / (GRADES.length : ℚ) := by
  unfold avgGradeCoverage
  split
  · rfl
  · rename_i h
    have h0 : teachers.length = 0 := by omega
    rw [h0]
    norm_num

/-- C2: for each of the five fixed subjects, the reported count equals the
number of occurrences of that subject name across the teachers'
student-grade label lists (provably always 0 — grade labels never spell a
subject name), and the subject is flagged weak exactly when that count is
below 50% of `teacherCount / numberOfSubjects`; likewise each fixed grade
label's count is its occurrence tally over the teachers' student-grade
lists, flagged weak exactly below 50% of `teacherCount / numberOfGrades`. -/
theorem expertiseCoverage_tally_weak (now : ℚ) (teachers : List TeacherTeamData) :
    (∀ s ∈ SUBJECTS,
      recGet (analyzeExpertiseCoverage now teachers).subjects s = labelOccurrences s teachers
      ∧ (s ∈ (analyzeExpertiseCoverage now teachers).weakSubjects ↔
          (labelOccurrences s teachers : ℚ) <
            ((teachers.length : ℚ) / (SUBJECTS.length : ℚ)) * 0.5))
    ∧ (∀ g ∈ GRADES,
      recGet (analyzeExpertiseCoverage now teachers).grades g = labelOccurrences g teachers
      ∧ (g ∈ (analyzeExpertiseCoverage now teachers).weakGrades ↔
          (labelOccurrences g teachers : ℚ) <
            ((teachers.length : ℚ) / (GRADES.length : ℚ)) * 0.5)) := by
  constructor
  · intro s hs
    constructor
    · show recGet subjectsTally s = _
      rw [recGet_subjectsTally, labelOccurrences_subject_zero s hs teachers]
    · show s ∈ weakSubjectsOf teachers ↔ _
      unfold weakSubjectsOf
      rw [List.mem_filter]
      simp only [decide_eq_true_eq]
      rw [recGet_subjectsTally, avgSubjectCoverage_eq,
        labelOccurrences_subject_zero s hs teachers]
      simp [hs, mul_comm]
  · intro g hg
    constructor
    · show recGet (gradesTally teachers) g = _
      exact recGet_gradesTally teachers g
    · show g ∈ weakGradesOf teachers ↔ _
      unfold weakGradesOf
      rw [List.mem_filter]
      simp only [decide_eq_true_eq]
      rw [recGet_gradesTally, avgGradeCoverage_eq]
      simp [hg]

/-- Witness for C2: one roster member with grades `[1, 1, 4]` and the
fixed grade label `중1`. -/
theorem expertiseCoverage_tally_weak_witness :
    recGet (analyzeExpertiseCoverage 0 [demoTeamTeacher]).grades ("중1") =
        labelOccurrences ("중1") [demoTeamTeacher]
      ∧ (("중1") ∈ (analyzeExpertiseCoverage 0 [demoTeamTeacher]).weakGrades ↔
          (labelOccurrences ("중1") [demoTeamTeacher] : ℚ) <
            (([demoTeamTeacher].length : ℚ) / (GRADES.length : ℚ)) * 0.5) :=
  (expertiseCoverage_tally_weak 0 [demoTeamTeacher]).2 ("중1") (by decide)

end AIS

namespace AIS

/-! ### C6: MBTI axis ratios -/

/-- Counterexample for C6: a roster whose single MBTI string is `S`
mentions no E/I letter, so the shared divisor `e + i` is 0 and the code
reports an S-ratio of 0, while the claimed per-axis formula gives
`s/(s+n)·100 = 100`. -/
theorem axisRatio_counterexample :
    (analyzeMBTIDistribution [sOnlyTeacher]).axisRatios.S ≠
      pairRatio (letterCount [sOnlyTeacher] 'S') (letterCount [sOnlyTeacher] 'N') := by
  have hS : letterCount [sOnlyTeacher] 'S' = 1 := by decide
  have hN : letterCount [sOnlyTeacher] 'N' = 0 := by decide
  have hE : letterCount [sOnlyTeacher] 'E' = 0 := by decide
  have hI : letterCount [sOnlyTeacher] 'I' = 0 := by decide
  have hcode : (analyzeMBTIDistribution [sOnlyTeacher]).axisRatios.S = 0 := by
    show axisRatio (letterCount [sOnlyTeacher] 'S')
      (letterCount [sOnlyTeacher] 'E' + letterCount [sOnlyTeacher] 'I') = 0
    rw [hE, hI]
    simp [axisRatio]
  rw [hcode, hS, hN]
  norm_num [pairRatio]

lemma letterFold_acc (c : Char) :
    ∀ (teachers : List TeacherTeamData) (acc : ℕ),
      teachers.foldl (fun acc2 t =>
        match t.mbtiType with
        | none => acc2
        | some m =>
            if m = "" then acc2
            else acc2 + (if (m.data.map Char.toUpper).contains c then 1 else 0)) acc
      = acc + (teachers.map (letterContrib c)).sum := by
  intro teachers
  induction teachers with
  | nil => intro acc; simp
  | cons t ts ih =>
      intro acc
      rw [List.foldl_cons, ih]
      simp only [List.map_cons, List.sum_cons]
      have hstep : (match t.mbtiType with
          | none => acc
          | some m =>
              if m = "" then acc
              else acc + (if (m.data.map Char.toUpper).contains c then 1 else 0))
          = acc + letterContrib c t := by
        unfold letterContrib
        rcases t.mbtiType with _ | m
        · simp
        · by_cases hm : m = "" <;> simp [hm]
      rw [hstep]
      omega

lemma letterCount_eq_sum (teachers : List TeacherTeamData) (c : Char) :
    letterCount teachers c = (teachers.map (letterContrib c)).sum := by
  unfold letterCount
  rw [letterFold_acc]
  simp

lemma bool_pair_one {x y : Bool} (h : x ≠ y) :
    (if x then 1 else 0) + (if y then 1 else 0) = 1 := by
  cases x <;> cases y <;> simp_all

lemma letterContrib_none (c : Char) {t : TeacherTeamData}
    (hm : t.mbtiType = none) : letterContrib c t = 0 := by
  unfold letterContrib
  rw [hm]

lemma letterContrib_some (c : Char) {t : TeacherTeamData} {m : String}
    (hm : t.mbtiType = some m) :
    letterContrib c t =
      if m = "" then 0
      else if (m.data.map Char.toUpper).contains c then 1 else 0 := by
  unfold letterContrib
  rw [hm]

lemma contrib_pair_eq {t : TeacherTeamData} {a b a2 b2 : Char}
    (h : ∀ m, t.mbtiType = some m → m = "" ∨ (oneOf m a b = true ∧ oneOf m a2 b2 = true)) :
    letterContrib a t + letterContrib b t = letterContrib a2 t + letterContrib b2 t := by
  rcases hm : t.mbtiType with _ | m
  · rw [letterContrib_none a hm, letterContrib_none b hm, letterContrib_none a2 hm,
      letterContrib_none b2 hm]
  · rw [letterContrib_some a hm, letterContrib_some b hm, letterContrib_some a2 hm,
      letterContrib_some b2 hm]
    rcases h m hm with he | ⟨h1, h2⟩
    · simp [he]
    · by_cases he : m = ""
      · simp [he]
      · rw [if_neg he, if_neg he, if_neg he, if_neg he]
        unfold oneOf at h1 h2
        rw [bne_iff_ne, ne_eq] at h1 h2
        rw [bool_pair_one h1, bool_pair_one h2]

lemma wellFormedMbti_some {t : TeacherTeamData} {m : String}
    (hm : t.mbtiType = some m) (hw : wellFormedMbti t = true) (he : ¬ m = "") :
    oneOf m 'E' 'I' = true ∧ oneOf m 'S' 'N' = true ∧ oneOf m 'T' 'F' = true
      ∧ oneOf m 'J' 'P' = true := by
  unfold wellFormedMbti at hw
  rw [hm] at hw
  have hw2 : (if m = "" then true
      else oneOf m 'E' 'I' && oneOf m 'S' 'N' && oneOf m 'T' 'F' && oneOf m 'J' 'P') = true := hw
  rw [if_neg he] at hw2
  simp only [Bool.and_eq_true] at hw2
  exact ⟨hw2.1.1.1, hw2.1.1.2, hw2.1.2, hw2.2⟩

lemma letterPairs_eq (teachers : List TeacherTeamData)
    (hw : ∀ t ∈ teachers, wellFormedMbti t = true) :
    (letterCount teachers 'E' + letterCount teachers 'I' =
        letterCount teachers 'S' + letterCount teachers 'N')
    ∧ (letterCount teachers 'E' + letterCount teachers 'I' =
        letterCount teachers 'T' + letterCount teachers 'F')
    ∧ (letterCount teachers 'E' + letterCount teachers 'I' =
        letterCount teachers 'J' + letterCount teachers 'P') := by
  induction teachers with
  | nil => simp [letterCount]
  | cons t ts ih =>
      have ht := hw t (List.mem_cons_self t ts)
      obtain ⟨ih1, ih2, ih3⟩ := ih (fun x hx => hw x (List.mem_cons_of_mem t hx))
      have hwf : ∀ m, t.mbtiType = some m → m = "" ∨
          (oneOf m 'E' 'I' = true ∧ oneOf m 'S' 'N' = true
            ∧ oneOf m 'T' 'F' = true ∧ oneOf m 'J' 'P' = true) := by
        intro m hm
        by_cases he : m = ""
        · exact Or.inl he
        · exact Or.inr (wellFormedMbti_some hm ht he)
      have hEI_SN : letterContrib 'E' t + letterContrib 'I' t =
          letterContrib 'S' t + letterContrib 'N' t := by
        apply contrib_pair_eq
        intro m hm
        rcases hwf m hm with h | h
        · exact Or.inl h
        · exact Or.inr ⟨h.1, h.2.1⟩
      have hEI_TF : letterContrib 'E' t + letterContrib 'I' t =
          letterContrib 'T' t + letterContrib 'F' t := by
        apply contrib_pair_eq
        intro m hm
        rcases hwf m hm with h | h
        · exact Or.inl h
        · exact Or.inr ⟨h.1, h.2.2.1⟩
      have hEI_JP : letterContrib 'E' t + letterContrib 'I' t =
          letterContrib 'J' t + letterContrib 'P' t := by
        apply contrib_pair_eq
        intro m hm
        rcases hwf m hm with h | h
        · exact Or.inl h
        · exact Or.inr ⟨h.1, h.2.2.2⟩
      simp only [letterCount_eq_sum, List.map_cons, List.sum_cons] at ih1 ih2 ih3 ⊢
      omega

lemma axisRatio_eq_pairRatio {x y tot : ℕ} (h : tot = x + y) :
    axisRatio x tot = pairRatio x y := by
  subst h
  unfold axisRatio pairRatio
  norm_cast

/-- C6 (amended): in `analyzeMBTIDistribution` every axis ratio is the
percentage of the letter count over the shared E+I pair total (0 when
that total is 0); whenever every MBTI string on the roster mentions
exactly one letter of each axis — every standard 16-type code — the four
pair totals coincide, so each ratio equals the claimed percentage of the
letter over its own axis pair. -/
theorem axisRatio_pairwise_of_wellFormed (teachers : List TeacherTeamData)
    (hw : ∀ t ∈ teachers, wellFormedMbti t = true) :
    (analyzeMBTIDistribution teachers).axisRatios =
      { E := pairRatio (letterCount teachers 'E') (letterCount teachers 'I')
        I := pairRatio (letterCount teachers 'I') (letterCount teachers 'E')
        S := pairRatio (letterCount teachers 'S') (letterCount teachers 'N')
        N := pairRatio (letterCount teachers 'N') (letterCount teachers 'S')
        T := pairRatio (letterCount teachers 'T') (letterCount teachers 'F')
        F := pairRatio (letterCount teachers 'F') (letterCount teachers 'T')
        J := pairRatio (letterCount teachers 'J') (letterCount teachers 'P')
        P := pairRatio (letterCount teachers 'P') (letterCount teachers 'J') } := by
  obtain ⟨hSN, hTF, hJP⟩ := letterPairs_eq teachers hw
  have hbase : (analyzeMBTIDistribution teachers).axisRatios =
      { E := axisRatio (letterCount teachers 'E')
          (letterCount teachers 'E' + letterCount teachers 'I')
        I := axisRatio (letterCount teachers 'I')
          (letterCount teachers 'E' + letterCount teachers 'I')
        S := axisRatio (letterCount teachers 'S')
          (letterCount teachers 'E' + letterCount teachers 'I')
        N := axisRatio (letterCount teachers 'N')
          (letterCount teachers 'E' + letterCount teachers 'I')
        T := axisRatio (letterCount teachers 'T')
          (letterCount teachers 'E' + letterCount teachers 'I')
        F := axisRatio (letterCount teachers 'F')
          (letterCount teachers 'E' + letterCount teachers 'I')
        J := axisRatio (letterCount teachers 'J')
          (letterCount teachers 'E' + letterCount teachers 'I')
        P := axisRatio (letterCount teachers 'P')
          (letterCount teachers 'E' + letterCount teachers 'I') } := rfl
  rw [hbase]
  simp only [AxisRatios.mk.injEq]
  refine ⟨?_, ?_, ?_, ?_, ?_, ?_, ?_, ?_⟩
  · exact axisRatio_eq_pairRatio rfl
  · exact axisRatio_eq_pairRatio (Nat.add_comm _ _)
  · exact axisRatio_eq_pairRatio hSN
  · exact axisRatio_eq_pairRatio (hSN.trans (Nat.add_comm _ _))
  · exact axisRatio_eq_pairRatio hTF
  · exact axisRatio_eq_pairRatio (hTF.trans (Nat.add_comm _ _))
  · exact axisRatio_eq_pairRatio hJP
  · exact axisRatio_eq_pairRatio (hJP.trans (Nat.add_comm _ _))

/-- Witness for C6 at a roster with the standard code `INTJ`. -/
theorem axisRatio_pairwise_witness :
    (analyzeMBTIDistribution [intjTeacher]).axisRatios =
      { E := pairRatio (letterCount [intjTeacher] 'E') (letterCount [intjTeacher] 'I')
        I := pairRatio (letterCount [intjTeacher] 'I') (letterCount [intjTeacher] 'E')
        S := pairRatio (letterCount [intjTeacher] 'S') (letterCount [intjTeacher] 'N')
        N := pairRatio (letterCount [intjTeacher] 'N') (letterCount [intjTeacher] 'S')
        T := pairRatio (letterCount [intjTeacher] 'T') (letterCount [intjTeacher] 'F')
        F := pairRatio (letterCount [intjTeacher] 'F') (letterCount [intjTeacher] 'T')
        J := pairRatio (letterCount [intjTeacher] 'J') (letterCount [intjTeacher] 'P')
        P := pairRatio (letterCount [intjTeacher] 'P') (letterCount [intjTeacher] 'J') } :=
  axisRatio_pairwise_of_wellFormed [intjTeacher] (by decide)

end AIS

namespace AIS

/-! ### C7: purity and clock dependence -/

/-- Counterexample for C7: the same (empty) roster analyzed at two
different clock instants yields different outputs — `analyzedAt` records
the invocation time — so `analyzeTeamComposition` is not a function of
its caller-supplied arguments alone. -/
theorem teamComposition_clock_dependent :
    analyzeTeamComposition 0 ("team") [] ≠ analyzeTeamComposition 1 ("team") [] := by
  intro h
  have h2 := congrArg TeamCompositionAnalysis.analyzedAt h
  have e0 : (analyzeTeamComposition 0 ("team") []).analyzedAt = 0 := rfl
  have e1 : (analyzeTeamComposition 1 ("team") []).analyzedAt = 1 := rfl
  rw [e0, e1] at h2
  norm_num at h2

/-- C7 (amended): `generateAutoAssignment` and `calculateFairnessMetrics`
are deterministic functions of their caller-supplied arguments alone;
`analyzeTeamComposition` additionally reads the wall clock, but that
reading affects only the `analyzedAt` stamp and the experience-tier
buckets — after erasing those two components its output is independent
of the clock as well. -/
theorem clock_confined :
    (∀ (now now2 : ℚ) (teamId : String) (teachers : List TeacherTeamData),
      eraseClock (analyzeTeamComposition now teamId teachers) =
        eraseClock (analyzeTeamComposition now2 teamId teachers))
    ∧ (∀ (students : List StudentCandidate) (teachers : List TeacherCandidate)
        (f : CompatibilityScoreFn) (o : AutoAssignmentOptions),
        generateAutoAssignment students teachers f o =
          generateAutoAssignment students teachers f o)
    ∧ (∀ (assignments : List Assignment) (gm : Option (String → Option String)),
        calculateFairnessMetrics assignments gm = calculateFairnessMetrics assignments gm) :=
  ⟨fun _ _ _ _ => rfl, fun _ _ _ _ => rfl, fun _ _ => rfl⟩

/-! ### C8: distribution balance -/

lemma recBump_ne_nil (l : List (String × ℕ)) (k : String) : recBump l k ≠ [] := by
  cases l with
  | nil => simp [recBump]
  | cons p rest =>
      obtain ⟨k1, v⟩ := p
      unfold recBump
      split <;> simp

lemma foldl_recBump_ne_nil (as : List Assignment) :
    ∀ l : List (String × ℕ), l ≠ [] →
      as.foldl (fun l2 a => recBump l2 a.teacherId) l ≠ [] := by
  induction as with
  | nil => intro l h; simpa using h
  | cons a rest ih =>
      intro l h
      rw [List.foldl_cons]
      exact ih _ (recBump_ne_nil l a.teacherId)

lemma teacherCounts_ne_nil {as : List Assignment} (h : as ≠ []) :
    teacherCounts as ≠ [] := by
  unfold teacherCounts
  rcases as with _ | ⟨a, rest⟩
  · exact absurd rfl h
  · rw [List.foldl_cons]
    have := foldl_recBump_ne_nil rest (recBump [] a.teacherId)
      (recBump_ne_nil [] a.teacherId)
    simpa using this

lemma recBump_values {l : List (String × ℕ)} (hl : ∀ p ∈ l, 1 ≤ p.2) (k : String) :
    ∀ p ∈ recBump l k, 1 ≤ p.2 := by
  induction l with
  | nil =>
      intro p hp
      unfold recBump at hp
      rcases List.mem_singleton.mp hp with rfl
      simp
  | cons q rest ih =>
      obtain ⟨k1, v⟩ := q
      intro p hp
      unfold recBump at hp
      by_cases h : k1 = k
      · rw [if_pos h] at hp
        rcases List.mem_cons.mp hp with rfl | hp2
        · simp
        · exact hl p (List.mem_cons_of_mem _ hp2)
      · rw [if_neg h] at hp
        rcases List.mem_cons.mp hp with rfl | hp2
        · exact hl (k1, v) (List.mem_cons_self _ _)
        · exact ih (fun q hq => hl q (List.mem_cons_of_mem _ hq)) p hp2

lemma teacherCounts_pos (as : List Assignment) : ∀ c ∈ teacherCounts as, 1 ≤ c := by
  have haux : ∀ (bs : List Assignment) (l : List (String × ℕ)),
      (∀ p ∈ l, 1 ≤ p.2) →
      ∀ p ∈ bs.foldl (fun l2 a => recBump l2 a.teacherId) l, 1 ≤ p.2 := by
    intro bs
    induction bs with
    | nil => intro l h; exact h
    | cons a rest ih =>
        intro l h
        rw [List.foldl_cons]
        exact ih _ (recBump_values h a.teacherId)
  intro c hc
  unfold teacherCounts at hc
  rw [List.mem_map] at hc
  obtain ⟨p, hp, rfl⟩ := hc
  exact haux as [] (by simp) p hp

lemma min_max_clamp (x : ℝ) : min 1 (max 0 x) = max 0 (min 1 x) := by
  simp only [min_def, max_def]
  split_ifs <;> linarith

lemma sum_map_cast_const {l : List ℕ} {k : ℕ} (h : ∀ c ∈ l, c = k) :
    (l.map (fun c : ℕ => (c : ℚ))).sum = (l.length : ℚ) * k := by
  induction l with
  | nil => simp
  | cons c rest ih =>
      rw [List.map_cons, List.sum_cons, ih (fun x hx => h x (List.mem_cons_of_mem c hx)),
        h c (List.mem_cons_self c rest), List.length_cons]
      push_cast
      ring

/-- C8: distribution balance is 1 on the empty assignment list and on any
assignment list whose per-teacher counts are all equal; on any non-empty
list it equals `max(0, min(1, 1 − stdDev/mean))` of the per-teacher
counts, a zero mean counting as perfectly balanced. -/
theorem distributionBalance_props :
    calculateDistributionBalance [] = 1
    ∧ (∀ (as : List Assignment) (k : ℕ),
        (∀ c ∈ teacherCounts as, c = k) → calculateDistributionBalance as = 1)
    ∧ (∀ as : List Assignment, as ≠ [] →
        calculateDistributionBalance as =
          if countsMean (teacherCounts as) = 0 then 1
          else max 0 (min 1 (1 - countsStdDev (teacherCounts as) /
            ((countsMean (teacherCounts as) : ℚ) : ℝ)))) := by
  have hempty : calculateDistributionBalance [] = 1 := by
    unfold calculateDistributionBalance
    simp
  refine ⟨hempty, ?_, ?_⟩
  · intro as k hk
    rcases eq_or_ne as [] with rfl | hne
    · exact hempty
    · have hcne := teacherCounts_ne_nil hne
      have hlen : (teacherCounts as).length ≠ 0 := by
        simpa [List.length_eq_zero] using hcne
      have hpos : 1 ≤ k := by
        obtain ⟨c, hc⟩ := List.exists_mem_of_ne_nil (teacherCounts as) hcne
        have h1 := teacherCounts_pos as c hc
        rw [hk c hc] at h1
        exact h1
      have hmean : countsMean (teacherCounts as) = (k : ℚ) := by
        unfold countsMean
        rw [sum_map_cast_const hk]
        have hq : ((teacherCounts as).length : ℚ) ≠ 0 := Nat.cast_ne_zero.mpr hlen
        field_simp
      have hvar : countsVariance (teacherCounts as) = 0 := by
        unfold countsVariance
        rw [List.sum_eq_zero, zero_div]
        intro x hx
        rw [List.mem_map] at hx
        obtain ⟨c, hc, rfl⟩ := hx
        rw [hk c hc, hmean]
        ring
      have hstd : countsStdDev (teacherCounts as) = 0 := by
        unfold countsStdDev
        rw [hvar]
        simp
      have hmne : ¬ countsMean (teacherCounts as) = 0 := by
        rw [hmean]
        simp only [Nat.cast_eq_zero]
        omega
      unfold calculateDistributionBalance
      rw [if_neg (by simpa [List.length_eq_zero] using hne),
        if_neg (by simpa [List.length_eq_zero] using hcne), if_neg hmne, hstd]
      norm_num
  · intro as hne
    have hcne := teacherCounts_ne_nil hne
    unfold calculateDistributionBalance
    rw [if_neg (by simpa [List.length_eq_zero] using hne),
      if_neg (by simpa [List.length_eq_zero] using hcne)]
    by_cases hm : countsMean (teacherCounts as) = 0
    · rw [if_pos hm, if_pos hm]
    · rw [if_neg hm, if_neg hm, min_max_clamp]

/-- Witness for C8: two assignments to two distinct teachers, per-teacher
counts all equal to 1, balance exactly 1. -/
theorem distributionBalance_props_witness :
    calculateDistributionBalance balancedAssignments = 1 :=
  distributionBalance_props.2.1 balancedAssignments 1 (by decide)

end AIS
